import Mathlib

/-!
Shallow embedding of the libgdbstub GDB remote-serial-protocol stub
(gdb-stub.c).  Machine integers are modelled as `Nat` with explicit
`% 2 ^ w` where the C code can wrap; byte buffers are `List Nat` whose
elements are byte values; pointers into buffers become list offsets.
External collaborators (the transport adapter and the debug target
adapter) are modelled as pure records of functions; every call the stub
makes to a collaborator is recorded in an event trace, and writes to the
transport carry the bytes written, so the wire output of the stub is the
concatenation of its `ioWrite` events.  Fallible C functions returning a
signed status code return the same `Int` codes here.
-/

namespace GdbStub

/-! Status codes from libgdbstub.h. -/

def GDBSTUB_INF_SUCCESS : Int := 0
def GDBSTUB_ERR_INVALID_PARAMETER : Int := -1
def GDBSTUB_ERR_NO_MEMORY : Int := -2
def GDBSTUB_INF_TRY_AGAIN : Int := 3
def GDBSTUB_ERR_INTERNAL_ERROR : Int := -4
def GDBSTUB_ERR_PEER_DISCONNECTED : Int := -5
def GDBSTUB_ERR_NOT_SUPPORTED : Int := -6
def GDBSTUB_ERR_PROTOCOL_VIOLATION : Int := -7
def GDBSTUB_ERR_BUFFER_OVERFLOW : Int := -8
def GDBSTUB_ERR_NOT_FOUND : Int := -9

/-! Protocol characters (gdb-stub.c GDBSTUB_PKT_START and friends). -/

def GDBSTUB_PKT_START : Nat := 36

def GDBSTUB_PKT_END : Nat := 35

def GDBSTUB_OOB_INTERRUPT : Nat := 3

/-- Receive state of the packet framer (GDBSTUBRECVSTATE). -/
inductive GDBSTUBRECVSTATE where
  | INVALID
  | PACKET_WAIT_FOR_START
  | PACKET_RECEIVE_BODY
  | PACKET_RECEIVE_CHECKSUM
deriving DecidableEq, Repr

/-- Target run state (GDBSTUBTGTSTATE). -/
inductive GDBSTUBTGTSTATE where
  | INVALID
  | RUNNING
  | STOPPED
deriving DecidableEq, Repr

/-- Target architecture tag (GDBSTUBTGTARCH). -/
inductive GDBSTUBTGTARCH where
  | INVALID
  | ARM
  | X86
  | AMD64
deriving DecidableEq, Repr

/-- Register semantic class (GDBSTUBREGTYPE). -/
inductive GDBSTUBREGTYPE where
  | INVALID
  | GP
  | PC
  | STACK_PTR
  | CODE_PTR
  | STATUS_REG
deriving DecidableEq, Repr

/-- Register descriptor (GDBSTUBREG): name, bit width, semantic class. -/
structure GDBSTUBREG where
  pszName : String
  cRegBits : Nat
  enmType : GDBSTUBREGTYPE
deriving DecidableEq, Repr

/-- Observable events of one stub computation: every write to the
transport (with the bytes written) and every call into the debug target
adapter.  `dispatchEnter` marks entry into the command dispatcher
`gdbStubCtxPktProcess`, so that claims about when the dispatcher is
invoked are statable on the trace. -/
inductive Event where
  | ioWrite (bytes : List Nat)
  | tgtStop
  | tgtStep
  | tgtCont
  | tgtKill
  | tgtRestart
  | memRead (addr cb : Nat)
  | memWrite (addr : Nat) (bytes : List Nat)
  | regsRead (idxs : List Nat)
  | regsWrite (idxs : List Nat) (bytes : List Nat)
  | tpSet (addr ty action : Nat)
  | tpClear (addr : Nat)
  | dispatchEnter
deriving DecidableEq, Repr

/-- The debug target adapter interface (GDBSTUBIF), with the optional
callbacks given as presence flags plus pure functions.  A target memory
read yields a status code and the bytes read; a register read yields a
status code and the bytes deposited in the scratch buffer.  User monitor
commands (GDBSTUBCMD) are pairs of a name and a callback from the
argument string to a status code and the bytes the callback printed into
the output helper scratch. -/
structure GDBSTUBIF where
  enmArch : GDBSTUBTGTARCH
  paRegs : List GDBSTUBREG
  hasTgtRestart : Bool
  hasTgtTpSet : Bool
  hasTgtTpClear : Bool
  paCmds : Option (List (String × (Option (List Nat) → Int × List Nat)))
  pfnTgtGetState : GDBSTUBTGTSTATE
  pfnTgtStop : Int
  pfnTgtRestart : Int
  pfnTgtKill : Int
  pfnTgtStep : Int
  pfnTgtCont : Int
  pfnTgtMemRead : Nat → Nat → Int × List Nat
  pfnTgtMemWrite : Nat → List Nat → Int
  pfnTgtRegsRead : List Nat → Int × List Nat
  pfnTgtRegsWrite : List Nat → List Nat → Int
  pfnTgtTpSet : Nat → Nat → Nat → Int
  pfnTgtTpClear : Nat → Int

/-- Internal stub context (GDBSTUBCTXINT).  The packet buffer is the
list `pbPktBuf` whose length is the allocated capacity `cbPktBufMax`;
the cached target description is `none` while the NULL pointer is
stored. -/
structure GDBSTUBCTXINT where
  enmState : GDBSTUBRECVSTATE
  cbPktBufMax : Nat
  offPktBuf : Nat
  cbPkt : Nat
  pbPktBuf : List Nat
  cbChksumRecvLeft : Nat
  enmTgtStateLast : GDBSTUBTGTSTATE
  cRegs : Nat
  cbRegs : Nat
  fFeatures : Nat
  pbTgtXmlDesc : Option (List Nat)
  cbTgtXmlDesc : Nat
  fExtendedMode : Bool
deriving DecidableEq, Repr

/-- Result of a stub computation: the updated context, the event trace
and the status code. -/
structure GdbOut where
  ctx : GDBSTUBCTXINT
  evs : List Event
  rc : Int
deriving DecidableEq, Repr

/-- Feature bit GDBSTUBCTX_FEATURES_F_TGT_DESC = BIT(0). -/
def GDBSTUBCTX_FEATURES_F_TGT_DESC : Nat := 1

/-! Byte-level helpers. -/

/-- ASCII bytes of a Lean string (all strings in the stub are ASCII). -/
def strBytes (s : String) : List Nat := s.data.map Char.toNat

/-- gdbStubCtxChrToHex: hexadecimal value of an ASCII digit, accepting
both cases, 0xff on a non-digit. -/
def gdbStubCtxChrToHex (ch : Nat) : Nat :=
  if 48 ≤ ch ∧ ch ≤ 57 then ch - 48
  else if 65 ≤ ch ∧ ch ≤ 70 then ch - 65 + 0xa
  else if 97 ≤ ch ∧ ch ≤ 102 then ch - 97 + 0xa
  else 0xff

/-- gdbStubCtxHexToChr: ASCII character of a 4-bit value, uppercase. -/
def gdbStubCtxHexToChr (uHex : Nat) : Nat :=
  if uHex < 0xa then 48 + uHex
  else if uHex ≤ 0xf then 65 + uHex - 0xa
  else 88

/-- Overwrite `buf` starting at offset `off` with `data` (the effect of
the C memcpy writes into the packet buffer). -/
def writeBytes (buf : List Nat) (off : Nat) (data : List Nat) : List Nat :=
  buf.take off ++ data ++ buf.drop (off + data.length)

/-- gdbStubCtxMemchr restricted to the first `cb` bytes: index of the
first occurrence of `ch`, if any. -/
def gdbStubCtxMemchrIdx (buf : List Nat) (ch : Nat) (cb : Nat) : Option Nat :=
  (buf.take cb).findIdx? (fun b => b = ch)

/-- gdbStubMemcmp as the equality test of its first `cb` bytes (the
source only uses whether the result is 0).  Reads past the end of a list
yield 0, standing for the unspecified bytes the C would read. -/
def gdbStubMemcmpIsEq (a b : List Nat) (cb : Nat) : Bool :=
  decide (∀ i ∈ List.range cb, a.getD i 0 = b.getD i 0)

/-- The C string stored in a byte buffer: the bytes before the first
NUL.  Models reading a NUL-terminated string back out of a buffer. -/
def cstrOf (bytes : List Nat) : List Nat := bytes.takeWhile (fun b => b ≠ 0)

/-- Hex encoding of a byte sequence, high nibble first, uppercase
(the write loop of gdbStubCtxEncodeBinaryAsHex). -/
def hexOfBytes : List Nat → List Nat
  | [] => []
  | b :: rest =>
      gdbStubCtxHexToChr (b >>> 4) :: gdbStubCtxHexToChr (b &&& 0xf) :: hexOfBytes rest

/-- gdbStubCtxEncodeBinaryAsHex: fails when the destination capacity
`cbDst` cannot hold two characters per source byte, otherwise yields the
hex characters to be stored at the destination. -/
def gdbStubCtxEncodeBinaryAsHex (cbDst : Nat) (src : List Nat) : Except Int (List Nat) :=
  if src.length * 2 > cbDst then .error GDBSTUB_ERR_INVALID_PARAMETER
  else .ok (hexOfBytes src)

/-- Accumulating loop of gdbStubCtxParseHexStringAsInteger: consume hex
digits until the separator or `cbBuf` bytes, returning the accumulated
value (uint64 arithmetic, so modulo 2^64) and the number of bytes
consumed before the separator. -/
def parseHexIntLoop (buf : List Nat) (cbBuf : Nat) (uVal : Nat) (chSep : Nat) : Nat × Nat :=
  match cbBuf, buf with
  | 0, _ => (uVal, 0)
  | _ + 1, [] => (uVal, 0)
  | cb + 1, b :: rest =>
      if b = chSep then (uVal, 0)
      else
        let r := parseHexIntLoop rest cb ((uVal * 16 + gdbStubCtxChrToHex b) % 2 ^ 64) chSep
        (r.1, r.2 + 1)

/-- gdbStubCtxParseHexStringAsInteger: value and offset of the separator
(the source always returns GDBSTUB_INF_SUCCESS).  The consumed count is
the distance from the start of `buf` to the separator, matching the
returned separator pointer. -/
def gdbStubCtxParseHexStringAsInteger (buf : List Nat) (cbBuf : Nat) (chSep : Nat) : Nat × Nat :=
  parseHexIntLoop buf cbBuf 0 chSep

/-- Decoding loop of gdbStubCtxParseHexStringAsByteBuf: two hex
characters per output byte, stopping when either count runs out. -/
def parseHexPairs (buf : List Nat) (cbBuf cbDst : Nat) : List Nat :=
  match cbDst, cbBuf with
  | 0, _ => []
  | _ + 1, 0 => []
  | cbDst + 1, cbBuf =>
      ((gdbStubCtxChrToHex (buf.getD 0 0) <<< 4) ||| gdbStubCtxChrToHex (buf.getD 1 0)) % 256
        :: parseHexPairs (buf.drop 2) (cbBuf - 2) cbDst

/-- gdbStubCtxParseHexStringAsByteBuf: rejects an odd number of digits,
otherwise yields the decoded bytes and the consumed count
`min cbBuf (cbDst * 2)` (stored through pcbDecoded before decoding). -/
def gdbStubCtxParseHexStringAsByteBuf (buf : List Nat) (cbBuf cbDst : Nat) :
    Except Int (List Nat × Nat) :=
  let cbDecode := min cbBuf (cbDst * 2)
  if cbDecode % 2 ≠ 0 then .error GDBSTUB_ERR_INVALID_PARAMETER
  else .ok (parseHexPairs buf cbBuf cbDst, cbDecode)

/-! Packet buffer management and reply framing. -/

/-- gdbStubCtxEnsurePktBufSpace.  When the free space past the write
offset is insufficient the buffer is reallocated with the new capacity
`cbPktBufMax - offPktBuf + cbSpace` and the first `offPktBuf` bytes are
copied over; the external allocator is modelled as always succeeding and
fresh memory as zero bytes. -/
def gdbStubCtxEnsurePktBufSpace (ctx : GDBSTUBCTXINT) (cbSpace : Nat) :
    GDBSTUBCTXINT × Int :=
  if ctx.cbPktBufMax - ctx.offPktBuf ≥ cbSpace then (ctx, GDBSTUB_INF_SUCCESS)
  else
    let cbPktBufMaxNew := ctx.cbPktBufMax - ctx.offPktBuf + cbSpace
    ({ ctx with
        pbPktBuf := ctx.pbPktBuf.take ctx.offPktBuf
          ++ List.replicate (cbPktBufMaxNew - ctx.offPktBuf) 0
        cbPktBufMax := cbPktBufMaxNew }, GDBSTUB_INF_SUCCESS)

/-- Modulo-256 checksum accumulation of gdbStubCtxReplySend (a uint8
accumulator summed over the body bytes). -/
def gdbStubPktChksum (body : List Nat) : Nat :=
  body.foldl (fun a b => (a + b) % 256) 0

/-- gdbStubCtxReplySend: the framed reply `$ body # cc` as the sequence
of transport writes the source performs (start byte, body when
non-empty, end byte, two checksum characters). -/
def gdbStubCtxReplySend (body : List Nat) : List Event :=
  let uChkSum := gdbStubPktChksum body
  [Event.ioWrite [GDBSTUB_PKT_START]]
    ++ (if body.length ≠ 0 then [Event.ioWrite body] else [])
    ++ [Event.ioWrite [GDBSTUB_PKT_END],
        Event.ioWrite [gdbStubCtxHexToChr (uChkSum >>> 4), gdbStubCtxHexToChr (uChkSum &&& 0xf)]]

/-- gdbStubCtxReplySendOk. -/
def gdbStubCtxReplySendOk : List Event := gdbStubCtxReplySend (strBytes "OK")

/-- gdbStubCtxReplySendErr: body `E` followed by two hex characters of
the error byte. -/
def gdbStubCtxReplySendErr (uErr : Nat) : List Event :=
  gdbStubCtxReplySend [69, gdbStubCtxHexToChr (uErr >>> 4), gdbStubCtxHexToChr (uErr &&& 0xf)]

/-- gdbStubCtxReplySendSigTrap: body `S05`. -/
def gdbStubCtxReplySendSigTrap : List Event := gdbStubCtxReplySend (strBytes "S05")

/-- gdbStubCtxReplySendErrSts: the low byte of the negated status code,
as the conversion of the int `(-rc) & 0xff` to uint8_t. -/
def gdbStubCtxReplySendErrSts (rc : Int) : List Event :=
  gdbStubCtxReplySendErr (((-rc).emod 256).toNat)

/-! Architecture mapping tables and the target description builder. -/

/-- s_aGdbArchMapping: GDB architecture name per target architecture
(`none` is the NULL entry for the INVALID tag). -/
def s_aGdbArchMapping : GDBSTUBTGTARCH → Option String
  | .INVALID => none
  | .ARM => some "arm"
  | .X86 => some "i386"
  | .AMD64 => some "i386"

/-- s_aGdbArchFeatMapping: core feature name per target architecture. -/
def s_aGdbArchFeatMapping : GDBSTUBTGTARCH → Option String
  | .INVALID => none
  | .ARM => some "org.gnu.gdb.arm.core"
  | .X86 => some "org.gnu.gdb.i386.core"
  | .AMD64 => some "org.gnu.gdb.arm.core"

/-- XML header literal s_szXmlTgtHdr. -/
def s_szXmlTgtHdr : String :=
  "<?xml version=\"1.0\"?>\n<!DOCTYPE target SYSTEM \"gdb-target.dtd\">\n<target version=\"1.0\">\n"

/-- XML footer literal s_szXmlTgtFooter. -/
def s_szXmlTgtFooter : String := "</target>\n"

/-- Register element bytes written by the register loop of
gdbStubCtxTgtXmlDescCreate: name, two bitsize digits, and the type
attribute for program-counter, stack-pointer and code-pointer
registers. -/
def xmlRegBytes (pReg : GDBSTUBREG) : List Nat :=
  strBytes "<reg name=\"" ++ strBytes pReg.pszName ++ strBytes "\" bitsize=\""
    ++ [(48 + pReg.cRegBits / 10) % 256, (48 + pReg.cRegBits % 10) % 256]
    ++ (if pReg.enmType = .PC ∨ pReg.enmType = .STACK_PTR ∨ pReg.enmType = .CODE_PTR then
          strBytes "\" type=\""
            ++ strBytes (if pReg.enmType = .STACK_PTR then "data_ptr" else "code_ptr")
        else [])
    ++ strBytes "\"/>\n"

/-- The bytes gdbStubCtxTgtXmlDescCreate writes into the allocated
description buffer. -/
def xmlDescWritten (enmArch : GDBSTUBTGTARCH) (paRegs : List GDBSTUBREG) : List Nat :=
  strBytes s_szXmlTgtHdr
    ++ strBytes "<architecture>" ++ strBytes ((s_aGdbArchMapping enmArch).getD "")
    ++ strBytes "</architecture>\n"
    ++ strBytes "<feature name=\"" ++ strBytes ((s_aGdbArchFeatMapping enmArch).getD "")
    ++ strBytes "\">\n"
    ++ (paRegs.map xmlRegBytes).flatten
    ++ strBytes "</feature>\n"
    ++ strBytes s_szXmlTgtFooter

/-- The size computation of gdbStubCtxTgtXmlDescCreate (which counts the
NUL terminators of the header and footer literals, so it exceeds the
written byte count by two). -/
def xmlDescSize (enmArch : GDBSTUBTGTARCH) (paRegs : List GDBSTUBREG) : Nat :=
  ((strBytes s_szXmlTgtHdr).length + 1) + ((strBytes s_szXmlTgtFooter).length + 1)
    + (strBytes "<architecture>").length + (strBytes "</architecture>\n").length
    + ((s_aGdbArchMapping enmArch).getD "").length
    + (strBytes "<feature name=\"\">\n").length + (strBytes "</feature>\n").length
    + ((s_aGdbArchFeatMapping enmArch).getD "").length
    + (paRegs.map (fun pReg =>
        (strBytes "<reg name=\"\" bitsize=\"\"/>\n").length + pReg.pszName.length + 2
          + (if pReg.enmType = .PC ∨ pReg.enmType = .STACK_PTR ∨ pReg.enmType = .CODE_PTR then
               (strBytes " type=\"\"").length + 1
                 + (if pReg.enmType = .STACK_PTR then "data_ptr".length else "code_ptr".length)
                 - 1
             else 0))).sum

/-- gdbStubCtxTgtXmlDescCreate: allocates `xmlDescSize` bytes (modelled
as zero-filled), writes the document, and stores pointer and size in the
context. -/
def gdbStubCtxTgtXmlDescCreate (pIf : GDBSTUBIF) (ctx : GDBSTUBCTXINT) :
    GDBSTUBCTXINT × Int :=
  let cbXmlTgtDesc := xmlDescSize pIf.enmArch pIf.paRegs
  let written := xmlDescWritten pIf.enmArch pIf.paRegs
  ({ ctx with
      pbTgtXmlDesc := some (written ++ List.replicate (cbXmlTgtDesc - written.length) 0)
      cbTgtXmlDesc := cbXmlTgtDesc }, GDBSTUB_INF_SUCCESS)

/-! Tracepoint enum values (libgdbstub.h ordinals). -/

def GDBSTUBTPTYPE_EXEC_SW : Nat := 1
def GDBSTUBTPTYPE_EXEC_HW : Nat := 2
def GDBSTUBTPTYPE_MEM_READ : Nat := 3
def GDBSTUBTPTYPE_MEM_WRITE : Nat := 4
def GDBSTUBTPTYPE_MEM_ACCESS : Nat := 5
def GDBSTUBTPACTION_STOP : Nat := 1

/-! Query packet processors. -/

/-- gdbStubCtxPktProcessQueryTStatus: reply `T0`. -/
def gdbStubCtxPktProcessQueryTStatus (ctx : GDBSTUBCTXINT) : GdbOut :=
  ⟨ctx, gdbStubCtxReplySend (strBytes "T0"), GDBSTUB_INF_SUCCESS⟩

/-- Scan loop of gdbStubCtxQueryPktQueryFeatureLen: number of leading
bytes (at most `cbArgs`) that are neither `;` nor the packet end
character, reading through `getD` as the C walks the buffer. -/
def featLenScan (pbArgs : List Nat) (i cbArgs : Nat) : Nat :=
  match cbArgs with
  | 0 => i
  | cb + 1 =>
      if pbArgs.getD i 0 = 59 ∨ pbArgs.getD i 0 = GDBSTUB_PKT_END then i
      else featLenScan pbArgs (i + 1) cb

/-- gdbStubCtxQueryPktQueryFeatureLen: length of the next feature and
whether the delimiter hit was the packet terminator; protocol violation
when the region is exhausted and the byte after it is no delimiter. -/
def gdbStubCtxQueryPktQueryFeatureLen (pbArgs : List Nat) (cbArgs : Nat) :
    Except Int (Nat × Bool) :=
  let i := featLenScan pbArgs 0 cbArgs
  if i = cbArgs ∧ pbArgs.getD i 0 ≠ 59 ∧ pbArgs.getD i 0 ≠ GDBSTUB_PKT_END then
    .error GDBSTUB_ERR_PROTOCOL_VIOLATION
  else .ok (i, pbArgs.getD i 0 = GDBSTUB_PKT_END)

/-- Comma-separated scan loop of gdbStubCtxPktProcessFeatXmlRegs:
whether any list entry prefix-matches the architecture name (the source
compares MIN(cbVal, cchArch) bytes).  Structural recursion on a fuel
counter so the definition computes; every iteration consumes at least
one value byte, so fuel `cbVal` is sufficient and the fuel-out arm is
unreachable from the wrapper. -/
def featXmlRegsLoopF (archStr : List Nat) : Nat → List Nat → Nat → Bool
  | _, _, 0 => false
  | 0, _, _ + 1 => false
  | fuel + 1, pbVal, cbVal =>
      if gdbStubMemcmpIsEq pbVal archStr (min cbVal archStr.length) then true
      else
        match gdbStubCtxMemchrIdx pbVal 44 cbVal with
        | some i => featXmlRegsLoopF archStr fuel (pbVal.drop (i + 1)) (cbVal - (i + 1))
        | none => false

/-- The featXmlRegs scan entered with sufficient fuel. -/
def featXmlRegsLoop (archStr : List Nat) (pbVal : List Nat) (cbVal : Nat) : Bool :=
  featXmlRegsLoopF archStr cbVal pbVal cbVal

/-- gdbStubCtxPktProcessFeatXmlRegs: set the target-description feature
flag when the peer advertised an xmlRegisters list containing this
target's architecture. -/
def gdbStubCtxPktProcessFeatXmlRegs (pIf : GDBSTUBIF) (ctx : GDBSTUBCTXINT)
    (pbVal : List Nat) (cbVal : Nat) : GdbOut :=
  let archStr := strBytes ((s_aGdbArchMapping pIf.enmArch).getD "")
  if featXmlRegsLoop archStr pbVal cbVal then
    ⟨{ ctx with fFeatures := ctx.fFeatures ||| GDBSTUBCTX_FEATURES_F_TGT_DESC }, [],
      GDBSTUB_INF_SUCCESS⟩
  else ⟨ctx, [], GDBSTUB_INF_SUCCESS⟩

/-- Feature loop of gdbStubCtxPktProcessQuerySupported over the
semicolon-separated feature tokens.  The feature table g_aGdbFeatures
has the single entry `xmlRegisters` (name length 12, value
required). -/
def supportedLoopF (pIf : GDBSTUBIF) : Nat → GDBSTUBCTXINT → List Nat → Nat →
    GDBSTUBCTXINT × Int
  | _, ctx, _, 0 => (ctx, GDBSTUB_INF_SUCCESS)
  | 0, ctx, _, _ + 1 => (ctx, GDBSTUB_ERR_INTERNAL_ERROR)
  | fuel + 1, ctx, pbArgs, cbArgs =>
      match gdbStubCtxQueryPktQueryFeatureLen pbArgs cbArgs with
      | .error e => (ctx, e)
      | .ok (cbArg, fTerminator) =>
          let handled :=
            if cbArg > 12 ∧ gdbStubMemcmpIsEq (strBytes "xmlRegisters") pbArgs 12 then
              let pbVal := pbArgs.drop 12
              let cbVal := cbArg - 12
              if pbVal.getD 0 0 = 61 ∧ cbVal > 1 then
                let h := gdbStubCtxPktProcessFeatXmlRegs pIf ctx (pbVal.drop 1) (cbVal - 1)
                (h.ctx, h.rc)
              else (ctx, GDBSTUB_ERR_PROTOCOL_VIOLATION)
            else (ctx, GDBSTUB_INF_SUCCESS)
          if handled.2 ≠ GDBSTUB_INF_SUCCESS then handled
          else if fTerminator then (handled.1, GDBSTUB_INF_SUCCESS)
          else supportedLoopF pIf fuel handled.1 (pbArgs.drop (cbArg + 1)) (cbArgs - cbArg - 1)

/-- The feature loop entered with sufficient fuel (each iteration
consumes at least one argument byte). -/
def supportedLoop (pIf : GDBSTUBIF) (ctx : GDBSTUBCTXINT) (pbArgs : List Nat) (cbArgs : Nat) :
    GDBSTUBCTXINT × Int :=
  supportedLoopF pIf cbArgs ctx pbArgs cbArgs

/-- gdbStubCtxPktProcessQuerySupportedReply: the stub's own feature
string, `qXfer:features:read+` when the target-description flag is set,
else the empty reply. -/
def gdbStubCtxPktProcessQuerySupportedReply (ctx : GDBSTUBCTXINT) : List Event :=
  if ctx.fFeatures &&& GDBSTUBCTX_FEATURES_F_TGT_DESC ≠ 0 then
    gdbStubCtxReplySend (strBytes "qXfer:features:read+")
  else gdbStubCtxReplySend []

/-- gdbStubCtxPktProcessQuerySupported: skip the leading colon, process
each feature token, then send the stub's supported features. -/
def gdbStubCtxPktProcessQuerySupported (pIf : GDBSTUBIF) (ctx : GDBSTUBCTXINT)
    (pbArgs : List Nat) (cbArgs : Nat) : GdbOut :=
  if cbArgs < 1 ∨ pbArgs.getD 0 0 ≠ 58 then ⟨ctx, [], GDBSTUB_ERR_PROTOCOL_VIOLATION⟩
  else
    let r := supportedLoop pIf ctx (pbArgs.drop 1) (cbArgs - 1)
    if r.2 = GDBSTUB_INF_SUCCESS then
      ⟨r.1, gdbStubCtxPktProcessQuerySupportedReply r.1, GDBSTUB_INF_SUCCESS⟩
    else ⟨r.1, [], r.2⟩

/-- gdbStubCtxQueryXferReadReply: slice the object for a
`qXfer:...:read` request.  A read starting inside the object is
prefixed `l` when the request was truncated (cbThisRead < cbRead) and
`m` otherwise; a read starting exactly at the end replies a bare `l`;
beyond the end is a protocol violation sent as an error reply (the
status code -7 converted to the uint8 error byte 0xF9). -/
def gdbStubCtxQueryXferReadReply (ctx : GDBSTUBCTXINT) (offRead cbRead : Nat)
    (pbObj : List Nat) (cbObj : Nat) : GdbOut :=
  if offRead < cbObj then
    let cbThisRead := if offRead + cbRead < cbObj then cbRead else cbObj - offRead
    let e := gdbStubCtxEnsurePktBufSpace ctx (cbThisRead + 1)
    if e.2 = GDBSTUB_INF_SUCCESS then
      let pfx := if cbThisRead < cbRead then 108 else 109
      let buf := writeBytes e.1.pbPktBuf 0 (pfx :: (pbObj.drop offRead).take cbThisRead)
      ⟨{ e.1 with pbPktBuf := buf },
        gdbStubCtxReplySend (buf.take (cbThisRead + 1)), GDBSTUB_INF_SUCCESS⟩
    else
      ⟨e.1, gdbStubCtxReplySendErr ((GDBSTUB_ERR_NO_MEMORY.emod 256).toNat), GDBSTUB_INF_SUCCESS⟩
  else if offRead = cbObj then
    ⟨ctx, gdbStubCtxReplySend (strBytes "l"), GDBSTUB_INF_SUCCESS⟩
  else
    ⟨ctx, gdbStubCtxReplySendErr ((GDBSTUB_ERR_PROTOCOL_VIOLATION.emod 256).toNat),
      GDBSTUB_INF_SUCCESS⟩

/-- gdbStubCtxPktProcessQueryXferParseAnnexOffLen: split
`annex:off,len` at the first colon, parse the offset up to the comma
(checking it fits in uint32), then the length up to the packet end. -/
def gdbStubCtxPktProcessQueryXferParseAnnexOffLen (pbArgs : List Nat) (cbArgs : Nat) :
    Except Int (Nat × Nat × Nat) :=
  match gdbStubCtxMemchrIdx pbArgs 58 cbArgs with
  | none => .error GDBSTUB_ERR_PROTOCOL_VIOLATION
  | some cchAnnex =>
      let pbSep := pbArgs.drop (cchAnnex + 1)
      let cbArgs1 := cbArgs - (cchAnnex + 1)
      let p1 := gdbStubCtxParseHexStringAsInteger pbSep cbArgs1 44
      if p1.1 % 2 ^ 32 = p1.1 then
        let p2 := gdbStubCtxParseHexStringAsInteger (pbSep.drop (p1.2 + 1)) (cbArgs1 - p1.2)
          GDBSTUB_PKT_END
        .ok (cchAnnex, p1.1, p2.1)
      else .error GDBSTUB_ERR_PROTOCOL_VIOLATION

/-- gdbStubCtxPktProcessQueryXferFeatRead: build the target description
on first use, parse `annex:off,len`, serve `target.xml` slices and send
`E00` for any other annex; without the negotiated feature the reply is
empty. -/
def gdbStubCtxPktProcessQueryXferFeatRead (pIf : GDBSTUBIF) (ctx : GDBSTUBCTXINT)
    (pbArgs : List Nat) (cbArgs : Nat) : GdbOut :=
  if cbArgs < 1 ∨ pbArgs.getD 0 0 ≠ 58 then ⟨ctx, [], GDBSTUB_ERR_PROTOCOL_VIOLATION⟩
  else
    let pbArgs1 := pbArgs.drop 1
    let cbArgs1 := cbArgs - 1
    if ctx.fFeatures &&& GDBSTUBCTX_FEATURES_F_TGT_DESC ≠ 0 then
      let c := if ctx.pbTgtXmlDesc = none then gdbStubCtxTgtXmlDescCreate pIf ctx
               else (ctx, GDBSTUB_INF_SUCCESS)
      if c.2 = GDBSTUB_INF_SUCCESS then
        match gdbStubCtxPktProcessQueryXferParseAnnexOffLen pbArgs1 cbArgs1 with
        | .ok (cchAnnex, offRead, cbRead) =>
            if cchAnnex = (strBytes "target.xml").length
                ∧ gdbStubMemcmpIsEq pbArgs1 (strBytes "target.xml") cchAnnex then
              gdbStubCtxQueryXferReadReply c.1 offRead cbRead (c.1.pbTgtXmlDesc.getD [])
                c.1.cbTgtXmlDesc
            else ⟨c.1, gdbStubCtxReplySendErr 0, GDBSTUB_INF_SUCCESS⟩
        | .error e => ⟨c.1, gdbStubCtxReplySendErrSts e, GDBSTUB_INF_SUCCESS⟩
      else ⟨c.1, gdbStubCtxReplySendErrSts c.2, GDBSTUB_INF_SUCCESS⟩
    else ⟨ctx, gdbStubCtxReplySend [], GDBSTUB_INF_SUCCESS⟩

/-- gdbStubCtxCmdProcess: run a monitor command callback, then reply
`OK` for empty output or the hex-encoded scratch contents (the output
helper scratch truncates at 512 bytes). -/
def gdbStubCtxCmdProcess (ctx : GDBSTUBCTXINT)
    (pfnCmd : Option (List Nat) → Int × List Nat) (pszArgs : Option (List Nat)) : GdbOut :=
  let r := pfnCmd pszArgs
  let scratch := r.2.take 512
  if r.1 = GDBSTUB_INF_SUCCESS then
    if scratch.length = 0 then ⟨ctx, gdbStubCtxReplySendOk, GDBSTUB_INF_SUCCESS⟩
    else
      let e := gdbStubCtxEnsurePktBufSpace ctx (scratch.length * 2)
      if e.2 = GDBSTUB_INF_SUCCESS then
        match gdbStubCtxEncodeBinaryAsHex (scratch.length * 2) scratch with
        | .ok hex =>
            let buf := writeBytes e.1.pbPktBuf 0 hex
            ⟨{ e.1 with pbPktBuf := buf },
              gdbStubCtxReplySend (buf.take (scratch.length * 2)), GDBSTUB_INF_SUCCESS⟩
        | .error rcE => ⟨e.1, gdbStubCtxReplySendErrSts rcE, GDBSTUB_INF_SUCCESS⟩
      else ⟨e.1, gdbStubCtxReplySendErrSts e.2, GDBSTUB_INF_SUCCESS⟩
  else ⟨ctx, gdbStubCtxReplySendErrSts r.1, GDBSTUB_INF_SUCCESS⟩

/-- gdbStubCtxPktProcessQueryRcmd: decode the hex command into the
4 KiB scratch (rejecting overlong commands with
GDBSTUB_ERR_BUFFER_OVERFLOW returned to the caller), split name and
arguments at the first space, look the name up in the target's custom
command table and run it; an unknown name sends an error reply.  The
scratch past the decoded bytes is modelled as zero. -/
def gdbStubCtxPktProcessQueryRcmd (pIf : GDBSTUBIF) (ctx : GDBSTUBCTXINT)
    (pbArgs : List Nat) (cbArgs : Nat) : GdbOut :=
  if cbArgs < 1 ∨ pbArgs.getD 0 0 ≠ 44 then ⟨ctx, [], GDBSTUB_ERR_PROTOCOL_VIOLATION⟩
  else
    match pIf.paCmds with
    | none => ⟨ctx, [], GDBSTUB_ERR_NOT_FOUND⟩
    | some paCmds =>
        let pbArgs1 := pbArgs.drop 1
        let cbArgs1 := cbArgs - 1
        if cbArgs1 / 2 ≥ 4096 then ⟨ctx, [], GDBSTUB_ERR_BUFFER_OVERFLOW⟩
        else
          match gdbStubCtxParseHexStringAsByteBuf pbArgs1 (cbArgs1 - 1) 4096 with
          | .error e => ⟨ctx, [], e⟩
          | .ok (decoded, cbDecoded) =>
              let szCmd := decoded ++ List.replicate (cbDecoded - decoded.length) 0
              let delim := gdbStubCtxMemchrIdx szCmd 32 cbDecoded
              let nameBytes := match delim with
                | some i => cstrOf (szCmd.take i)
                | none => cstrOf (szCmd.take cbDecoded)
              let pszArgs := match delim with
                | some i => some (cstrOf ((szCmd.take cbDecoded).drop (i + 1)))
                | none => none
              match paCmds.find? (fun c => strBytes c.1 = nameBytes) with
              | some cmd => gdbStubCtxCmdProcess ctx cmd.2 pszArgs
              | none =>
                  ⟨ctx, gdbStubCtxReplySendErrSts GDBSTUB_ERR_NOT_FOUND, GDBSTUB_INF_SUCCESS⟩

/-- gdbStubCtxPktProcessQuery: longest-prefix dispatch over the query
table g_aQPktProcs in its source order (TStatus, Supported,
Xfer:features:read, Rcmd); unknown queries get the empty reply. -/
def gdbStubCtxPktProcessQuery (pIf : GDBSTUBIF) (ctx : GDBSTUBCTXINT)
    (pbQuery : List Nat) (cbQuery : Nat) : GdbOut :=
  let cb0 := min (strBytes "TStatus").length cbQuery
  if gdbStubMemcmpIsEq pbQuery (strBytes "TStatus") cb0 then
    gdbStubCtxPktProcessQueryTStatus ctx
  else
    let cb1 := min (strBytes "Supported").length cbQuery
    if gdbStubMemcmpIsEq pbQuery (strBytes "Supported") cb1 then
      gdbStubCtxPktProcessQuerySupported pIf ctx (pbQuery.drop cb1) (cbQuery - cb1)
    else
      let cb2 := min (strBytes "Xfer:features:read").length cbQuery
      if gdbStubMemcmpIsEq pbQuery (strBytes "Xfer:features:read") cb2 then
        gdbStubCtxPktProcessQueryXferFeatRead pIf ctx (pbQuery.drop cb2) (cbQuery - cb2)
      else
        let cb3 := min (strBytes "Rcmd").length cbQuery
        if gdbStubMemcmpIsEq pbQuery (strBytes "Rcmd") cb3 then
          gdbStubCtxPktProcessQueryRcmd pIf ctx (pbQuery.drop cb3) (cbQuery - cb3)
        else ⟨ctx, gdbStubCtxReplySend [], GDBSTUB_INF_SUCCESS⟩

/-- gdbStubCtxPktProcessVCont: run the first action of a
`vCont;action` packet (continue, step or stop), ignoring thread ids. -/
def gdbStubCtxPktProcessVCont (pIf : GDBSTUBIF) (ctx : GDBSTUBCTXINT)
    (pbArgs : List Nat) (cbArgs : Nat) : GdbOut :=
  if cbArgs < 2 ∨ pbArgs.getD 0 0 ≠ 59 then
    ⟨ctx, gdbStubCtxReplySendErrSts GDBSTUB_ERR_PROTOCOL_VIOLATION, GDBSTUB_INF_SUCCESS⟩
  else
    let a := pbArgs.getD 1 0
    if a = 99 then
      if pIf.pfnTgtCont = GDBSTUB_INF_SUCCESS then
        ⟨{ ctx with enmTgtStateLast := .RUNNING }, [Event.tgtCont], GDBSTUB_INF_SUCCESS⟩
      else ⟨ctx, [Event.tgtCont], pIf.pfnTgtCont⟩
    else if a = 115 then
      if pIf.pfnTgtStep = GDBSTUB_INF_SUCCESS then
        ⟨ctx, Event.tgtStep :: gdbStubCtxReplySendSigTrap, GDBSTUB_INF_SUCCESS⟩
      else ⟨ctx, [Event.tgtStep], pIf.pfnTgtStep⟩
    else if a = 116 then
      if pIf.pfnTgtStop = GDBSTUB_INF_SUCCESS then
        ⟨ctx, Event.tgtStop :: gdbStubCtxReplySendSigTrap, GDBSTUB_INF_SUCCESS⟩
      else ⟨ctx, [Event.tgtStop], pIf.pfnTgtStop⟩
    else ⟨ctx, gdbStubCtxReplySendErrSts GDBSTUB_ERR_PROTOCOL_VIOLATION, GDBSTUB_INF_SUCCESS⟩

/-- gdbStubCtxPktProcessV: find the identifier delimiter (`?` marks a
query, else `;`, else end of packet); the table g_aVPktProcs has the
single entry `Cont` with static query reply `vCont;s;c;t`. -/
def gdbStubCtxPktProcessV (pIf : GDBSTUBIF) (ctx : GDBSTUBCTXINT)
    (pbPktRem : List Nat) (cbPktRem : Nat) : GdbOut :=
  let q := gdbStubCtxMemchrIdx pbPktRem 63 cbPktRem
  let fQuery := q.isSome
  let delim := match q with
    | some i => some i
    | none => gdbStubCtxMemchrIdx pbPktRem 59 cbPktRem
  let cchId := match delim with
    | some i => i
    | none => cbPktRem
  if (strBytes "Cont").length = cchId ∧ gdbStubMemcmpIsEq pbPktRem (strBytes "Cont") cchId then
    if fQuery then ⟨ctx, gdbStubCtxReplySend (strBytes "vCont;s;c;t"), GDBSTUB_INF_SUCCESS⟩
    else gdbStubCtxPktProcessVCont pIf ctx (pbPktRem.drop cchId) (cbPktRem - cchId)
  else ⟨ctx, gdbStubCtxReplySend [], GDBSTUB_INF_SUCCESS⟩

/-- gdbStubCtxParseTpPktArgs: parse `type,addr,kind` of a `Z`/`z`
packet; the byte-count bookkeeping follows the source (which adds one
back for each separator).  Yields the mapped tracepoint type, the
address and the kind. -/
def gdbStubCtxParseTpPktArgs (pbArgs : List Nat) (cbArgs : Nat) :
    Except Int (Nat × Nat × Nat) :=
  let p1 := gdbStubCtxParseHexStringAsInteger pbArgs cbArgs 44
  let cb2 := cbArgs + 1 - p1.2
  let p2 := gdbStubCtxParseHexStringAsInteger (pbArgs.drop (p1.2 + 1)) cb2 44
  let pos2 := p1.2 + 1 + p2.2
  let cb3 := cbArgs + 1 - pos2
  let p3 := gdbStubCtxParseHexStringAsInteger (pbArgs.drop (pos2 + 1)) cb3 GDBSTUB_PKT_END
  if p1.1 = 0 then .ok (GDBSTUBTPTYPE_EXEC_SW, p2.1, p3.1)
  else if p1.1 = 1 then .ok (GDBSTUBTPTYPE_EXEC_HW, p2.1, p3.1)
  else if p1.1 = 2 then .ok (GDBSTUBTPTYPE_MEM_WRITE, p2.1, p3.1)
  else if p1.1 = 3 then .ok (GDBSTUBTPTYPE_MEM_READ, p2.1, p3.1)
  else if p1.1 = 4 then .ok (GDBSTUBTPTYPE_MEM_ACCESS, p2.1, p3.1)
  else .error GDBSTUB_ERR_INVALID_PARAMETER

/-! The command dispatcher gdbStubCtxPktProcess. -/

/-- Memory-read loop of the `m` case of gdbStubCtxPktProcess: read in
chunks of at most 1024 bytes, hex-encode each chunk into the packet
buffer, and advance the buffer position by `cbThisRead` (the raw chunk
size, as the source does).  Returns the written buffer, the events and
the status. -/
def memReadLoopF (pIf : GDBSTUBIF) : Nat → List Nat → Nat → Nat → Nat → Nat →
    List Nat × List Event × Int
  | _, buf, _, _, _, 0 => (buf, [], GDBSTUB_INF_SUCCESS)
  | 0, buf, _, _, _, _ + 1 => (buf, [], GDBSTUB_ERR_INTERNAL_ERROR)
  | fuel + 1, buf, off, cbPktBufLeft, GdbTgtAddr, cbRead =>
      let cbThisRead := min cbRead 1024
      let r := pIf.pfnTgtMemRead GdbTgtAddr cbThisRead
      let ev := Event.memRead GdbTgtAddr cbThisRead
      if r.1 ≠ GDBSTUB_INF_SUCCESS then (buf, [ev], r.1)
      else
        let abTmp := (r.2 ++ List.replicate cbThisRead 0).take cbThisRead
        match gdbStubCtxEncodeBinaryAsHex cbPktBufLeft abTmp with
        | .error e => (buf, [ev], e)
        | .ok hex =>
            let rest := memReadLoopF pIf fuel (writeBytes buf off hex) (off + cbThisRead)
              (cbPktBufLeft - cbThisRead) (GdbTgtAddr + cbThisRead) (cbRead - cbThisRead)
            (rest.1, ev :: rest.2.1, rest.2.2)

/-- The memory-read loop entered with sufficient fuel (each iteration
consumes at least one byte of the request). -/
def memReadLoop (pIf : GDBSTUBIF) (buf : List Nat) (off cbPktBufLeft GdbTgtAddr cbRead : Nat) :
    List Nat × List Event × Int :=
  memReadLoopF pIf cbRead buf off cbPktBufLeft GdbTgtAddr cbRead

/-- Memory-write loop of the `M` case of gdbStubCtxPktProcess: decode
chunks of at most 4096 bytes and hand each to the target's memory
write (the stack scratch past the decoded bytes is modelled as
zero). -/
def memWriteLoopF (pIf : GDBSTUBIF) : Nat → List Nat → Nat → Nat → Nat → List Event × Int
  | _, _, _, _, 0 => ([], GDBSTUB_INF_SUCCESS)
  | 0, _, _, _, _ + 1 => ([], GDBSTUB_ERR_INTERNAL_ERROR)
  | fuel + 1, pbDataCur, cbDataLeft, GdbTgtAddr, cbWrite =>
      let cbThisWrite := min cbWrite 4096
      match gdbStubCtxParseHexStringAsByteBuf pbDataCur cbDataLeft cbThisWrite with
      | .error e => ([], e)
      | .ok (decoded, cbDecoded) =>
          let abTmp := (decoded ++ List.replicate cbThisWrite 0).take cbThisWrite
          let rcW := pIf.pfnTgtMemWrite GdbTgtAddr abTmp
          let ev := Event.memWrite GdbTgtAddr abTmp
          if rcW ≠ GDBSTUB_INF_SUCCESS then ([ev], rcW)
          else
            let rest := memWriteLoopF pIf fuel (pbDataCur.drop cbDecoded)
              (cbDataLeft - cbDecoded) (GdbTgtAddr + cbThisWrite) (cbWrite - cbThisWrite)
            (ev :: rest.1, rest.2)

/-- The memory-write loop entered with sufficient fuel (each iteration
consumes at least one byte of the request). -/
def memWriteLoop (pIf : GDBSTUBIF) (pbDataCur : List Nat) (cbDataLeft GdbTgtAddr cbWrite : Nat) :
    List Event × Int :=
  memWriteLoopF pIf cbWrite pbDataCur cbDataLeft GdbTgtAddr cbWrite

/-- Default register descriptor used for out-of-table reads of the
register array (never reached under the `idxReg < cRegs` guard when the
context was created from the same interface). -/
def regDefault : GDBSTUBREG := ⟨"", 0, .INVALID⟩

/-- The `!` case of gdbStubCtxPktProcess: enable extended mode when the
target supports restart. -/
def pktCaseExtendedMode (pIf : GDBSTUBIF) (ctx : GDBSTUBCTXINT) : GdbOut :=
  if pIf.hasTgtRestart then
    ⟨{ ctx with fExtendedMode := true }, gdbStubCtxReplySendOk, GDBSTUB_INF_SUCCESS⟩
  else ⟨ctx, gdbStubCtxReplySend [], GDBSTUB_INF_SUCCESS⟩

/-- The `s` case of gdbStubCtxPktProcess: single step, then the stop
reply on success. -/
def pktCaseStep (pIf : GDBSTUBIF) (ctx : GDBSTUBCTXINT) : GdbOut :=
  if pIf.pfnTgtStep = GDBSTUB_INF_SUCCESS then
    ⟨ctx, Event.tgtStep :: gdbStubCtxReplySendSigTrap, GDBSTUB_INF_SUCCESS⟩
  else ⟨ctx, [Event.tgtStep], pIf.pfnTgtStep⟩

/-- The `c` case of gdbStubCtxPktProcess: continue, no reply, note the
running state on success. -/
def pktCaseCont (pIf : GDBSTUBIF) (ctx : GDBSTUBCTXINT) : GdbOut :=
  if pIf.pfnTgtCont = GDBSTUB_INF_SUCCESS then
    ⟨{ ctx with enmTgtStateLast := .RUNNING }, [Event.tgtCont], GDBSTUB_INF_SUCCESS⟩
  else ⟨ctx, [Event.tgtCont], pIf.pfnTgtCont⟩

/-- The `g` case of gdbStubCtxPktProcess: read the whole register file
through the identity index vector and reply with its hex encoding. -/
def pktCaseReadRegs (pIf : GDBSTUBIF) (ctx : GDBSTUBCTXINT) : GdbOut :=
  let idxs := List.range ctx.cRegs
  let r := pIf.pfnTgtRegsRead idxs
  let ev := Event.regsRead idxs
  if r.1 = GDBSTUB_INF_SUCCESS then
    let scratch := (r.2 ++ List.replicate ctx.cbRegs 0).take ctx.cbRegs
    let cbReplyPkt := ctx.cbRegs * 2
    let e := gdbStubCtxEnsurePktBufSpace ctx cbReplyPkt
    if e.2 = GDBSTUB_INF_SUCCESS then
      match gdbStubCtxEncodeBinaryAsHex e.1.cbPktBufMax scratch with
      | .ok hex =>
          let buf := writeBytes e.1.pbPktBuf 0 hex
          ⟨{ e.1 with pbPktBuf := buf },
            ev :: gdbStubCtxReplySend (buf.take cbReplyPkt), GDBSTUB_INF_SUCCESS⟩
      | .error rcE => ⟨e.1, ev :: gdbStubCtxReplySendErrSts rcE, GDBSTUB_INF_SUCCESS⟩
    else ⟨e.1, ev :: gdbStubCtxReplySendErrSts e.2, GDBSTUB_INF_SUCCESS⟩
  else ⟨ctx, ev :: gdbStubCtxReplySendErrSts r.1, GDBSTUB_INF_SUCCESS⟩

/-- The `m` case of gdbStubCtxPktProcess: parse `addr,len`, stream the
read in 1 KiB chunks through the packet buffer and reply. -/
def pktCaseReadMem (pIf : GDBSTUBIF) (ctx : GDBSTUBCTXINT) : GdbOut :=
  let p1 := gdbStubCtxParseHexStringAsInteger (ctx.pbPktBuf.drop 2) (ctx.cbPkt - 1) 44
  let GdbTgtAddr := p1.1
  let cbProcessed := p1.2
  let p2 := gdbStubCtxParseHexStringAsInteger (ctx.pbPktBuf.drop (2 + cbProcessed + 1))
    (ctx.cbPkt - 1 - cbProcessed - 1) GDBSTUB_PKT_END
  let cbRead := p2.1
  let cbReplyPkt := cbRead * 2
  let e := gdbStubCtxEnsurePktBufSpace ctx cbReplyPkt
  if e.2 = GDBSTUB_INF_SUCCESS then
    let l := memReadLoop pIf e.1.pbPktBuf 0 cbReplyPkt GdbTgtAddr cbRead
    let ctx1 := { e.1 with pbPktBuf := l.1 }
    if l.2.2 = GDBSTUB_INF_SUCCESS then
      ⟨ctx1, l.2.1 ++ gdbStubCtxReplySend (l.1.take cbReplyPkt), GDBSTUB_INF_SUCCESS⟩
    else ⟨ctx1, l.2.1 ++ gdbStubCtxReplySendErrSts l.2.2, GDBSTUB_INF_SUCCESS⟩
  else ⟨e.1, gdbStubCtxReplySendErrSts e.2, GDBSTUB_INF_SUCCESS⟩

/-- The `M` case of gdbStubCtxPktProcess: parse `addr,len:data` and
write the decoded data in 4 KiB chunks. -/
def pktCaseWriteMem (pIf : GDBSTUBIF) (ctx : GDBSTUBCTXINT) : GdbOut :=
  let p1 := gdbStubCtxParseHexStringAsInteger (ctx.pbPktBuf.drop 2) (ctx.cbPkt - 1) 44
  let GdbTgtAddr := p1.1
  let cbProcessed1 := p1.2
  let p2 := gdbStubCtxParseHexStringAsInteger (ctx.pbPktBuf.drop (2 + cbProcessed1 + 1))
    (ctx.cbPkt - 1 - cbProcessed1 - 1) 58
  let cbWrite := p2.1
  let cbProcessed := cbProcessed1 + 1 + p2.2
  let pbDataCur := ctx.pbPktBuf.drop (2 + cbProcessed + 1)
  let cbDataLeft := ctx.cbPkt - 1 - cbProcessed - 1 - 1
  let l := memWriteLoop pIf pbDataCur cbDataLeft GdbTgtAddr cbWrite
  if l.2 = GDBSTUB_INF_SUCCESS then
    ⟨ctx, l.1 ++ gdbStubCtxReplySendOk, GDBSTUB_INF_SUCCESS⟩
  else ⟨ctx, l.1 ++ gdbStubCtxReplySendErrSts l.2, GDBSTUB_INF_SUCCESS⟩

/-- The `p` case of gdbStubCtxPktProcess: read one register and reply
with the hex encoding of its declared width. -/
def pktCaseReadReg (pIf : GDBSTUBIF) (ctx : GDBSTUBCTXINT) : GdbOut :=
  let p1 := gdbStubCtxParseHexStringAsInteger (ctx.pbPktBuf.drop 2) (ctx.cbPkt - 1)
    GDBSTUB_PKT_END
  let idxReg := p1.1 % 2 ^ 32
  if idxReg < ctx.cRegs then
    let r := pIf.pfnTgtRegsRead [idxReg]
    let ev := Event.regsRead [idxReg]
    if r.1 = GDBSTUB_INF_SUCCESS then
      let cbReg := (pIf.paRegs.getD idxReg regDefault).cRegBits / 8
      let scratch := (r.2 ++ List.replicate cbReg 0).take cbReg
      let cbReplyPkt := cbReg * 2
      let e := gdbStubCtxEnsurePktBufSpace ctx cbReplyPkt
      if e.2 = GDBSTUB_INF_SUCCESS then
        match gdbStubCtxEncodeBinaryAsHex e.1.cbPktBufMax scratch with
        | .ok hex =>
            let buf := writeBytes e.1.pbPktBuf 0 hex
            ⟨{ e.1 with pbPktBuf := buf },
              ev :: gdbStubCtxReplySend (buf.take cbReplyPkt), GDBSTUB_INF_SUCCESS⟩
        | .error rcE => ⟨e.1, ev :: gdbStubCtxReplySendErrSts rcE, GDBSTUB_INF_SUCCESS⟩
      else ⟨e.1, ev :: gdbStubCtxReplySendErrSts e.2, GDBSTUB_INF_SUCCESS⟩
    else ⟨ctx, ev :: gdbStubCtxReplySendErrSts r.1, GDBSTUB_INF_SUCCESS⟩
  else ⟨ctx, gdbStubCtxReplySendErrSts GDBSTUB_ERR_PROTOCOL_VIOLATION, GDBSTUB_INF_SUCCESS⟩

/-- The `P` case of gdbStubCtxPktProcess: parse `n=data`, decode the
payload into the 4-byte uint32 scratch and write that register. -/
def pktCaseWriteReg (pIf : GDBSTUBIF) (ctx : GDBSTUBCTXINT) : GdbOut :=
  let p1 := gdbStubCtxParseHexStringAsInteger (ctx.pbPktBuf.drop 2) (ctx.cbPkt - 1) 61
  let idxReg := p1.1 % 2 ^ 32
  if idxReg < ctx.cRegs then
    let cbProcessed := p1.2
    match gdbStubCtxParseHexStringAsByteBuf (ctx.pbPktBuf.drop (2 + cbProcessed + 1))
        (ctx.cbPkt - 1 - cbProcessed - 1) 4 with
    | .ok pr =>
        let u32RegVal := (pr.1 ++ List.replicate 4 0).take 4
        let rcW := pIf.pfnTgtRegsWrite [idxReg] u32RegVal
        let ev := Event.regsWrite [idxReg] u32RegVal
        if rcW = GDBSTUB_INF_SUCCESS then
          ⟨ctx, ev :: gdbStubCtxReplySendOk, GDBSTUB_INF_SUCCESS⟩
        else if rcW = GDBSTUB_ERR_NOT_SUPPORTED then
          ⟨ctx, ev :: gdbStubCtxReplySend [], GDBSTUB_INF_SUCCESS⟩
        else ⟨ctx, ev :: gdbStubCtxReplySendErrSts rcW, GDBSTUB_INF_SUCCESS⟩
    | .error e => ⟨ctx, [], e⟩
  else ⟨ctx, gdbStubCtxReplySendErrSts GDBSTUB_ERR_PROTOCOL_VIOLATION, GDBSTUB_INF_SUCCESS⟩

/-- The `Z` case of gdbStubCtxPktProcess: parse the tracepoint triple
and set a tracepoint with the stop action. -/
def pktCaseTpSet (pIf : GDBSTUBIF) (ctx : GDBSTUBCTXINT) : GdbOut :=
  match gdbStubCtxParseTpPktArgs (ctx.pbPktBuf.drop 2) (ctx.cbPkt - 1) with
  | .ok r =>
      let call := if pIf.hasTgtTpSet then
          ([Event.tpSet r.2.1 r.1 GDBSTUBTPACTION_STOP],
            pIf.pfnTgtTpSet r.2.1 r.1 GDBSTUBTPACTION_STOP)
        else ([], GDBSTUB_ERR_NOT_SUPPORTED)
      if call.2 = GDBSTUB_INF_SUCCESS then
        ⟨ctx, call.1 ++ gdbStubCtxReplySendOk, GDBSTUB_INF_SUCCESS⟩
      else if call.2 = GDBSTUB_ERR_NOT_SUPPORTED then
        ⟨ctx, call.1 ++ gdbStubCtxReplySend [], GDBSTUB_INF_SUCCESS⟩
      else ⟨ctx, call.1 ++ gdbStubCtxReplySendErrSts call.2, GDBSTUB_INF_SUCCESS⟩
  | .error e => ⟨ctx, gdbStubCtxReplySendErrSts e, GDBSTUB_INF_SUCCESS⟩

/-- The `z` case of gdbStubCtxPktProcess: parse the tracepoint triple
and clear the tracepoint at its address. -/
def pktCaseTpClear (pIf : GDBSTUBIF) (ctx : GDBSTUBCTXINT) : GdbOut :=
  match gdbStubCtxParseTpPktArgs (ctx.pbPktBuf.drop 2) (ctx.cbPkt - 1) with
  | .ok r =>
      let call := if pIf.hasTgtTpClear then ([Event.tpClear r.2.1], pIf.pfnTgtTpClear r.2.1)
        else ([], GDBSTUB_ERR_NOT_SUPPORTED)
      if call.2 = GDBSTUB_INF_SUCCESS then
        ⟨ctx, call.1 ++ gdbStubCtxReplySendOk, GDBSTUB_INF_SUCCESS⟩
      else if call.2 = GDBSTUB_ERR_NOT_SUPPORTED then
        ⟨ctx, call.1 ++ gdbStubCtxReplySend [], GDBSTUB_INF_SUCCESS⟩
      else ⟨ctx, call.1 ++ gdbStubCtxReplySendErrSts call.2, GDBSTUB_INF_SUCCESS⟩
  | .error e => ⟨ctx, gdbStubCtxReplySendErrSts e, GDBSTUB_INF_SUCCESS⟩

/-- The `R` case of gdbStubCtxPktProcess: restart the target in
extended mode, empty reply otherwise. -/
def pktCaseRestart (pIf : GDBSTUBIF) (ctx : GDBSTUBCTXINT) : GdbOut :=
  if ctx.fExtendedMode then ⟨ctx, [Event.tgtRestart], pIf.pfnTgtRestart⟩
  else ⟨ctx, gdbStubCtxReplySend [], GDBSTUB_INF_SUCCESS⟩

/-- The command switch of gdbStubCtxPktProcess on the command letter
`pbPktBuf[1]`, one arm per source case, entered only when
`cbPkt >= 1`. -/
def gdbStubCtxPktProcessSwitch (pIf : GDBSTUBIF) (ctx : GDBSTUBCTXINT) : GdbOut :=
  if ctx.pbPktBuf.getD 1 0 = 33 then pktCaseExtendedMode pIf ctx
  else if ctx.pbPktBuf.getD 1 0 = 63 then ⟨ctx, gdbStubCtxReplySendSigTrap, GDBSTUB_INF_SUCCESS⟩
  else if ctx.pbPktBuf.getD 1 0 = 115 then pktCaseStep pIf ctx
  else if ctx.pbPktBuf.getD 1 0 = 99 then pktCaseCont pIf ctx
  else if ctx.pbPktBuf.getD 1 0 = 103 then pktCaseReadRegs pIf ctx
  else if ctx.pbPktBuf.getD 1 0 = 109 then pktCaseReadMem pIf ctx
  else if ctx.pbPktBuf.getD 1 0 = 77 then pktCaseWriteMem pIf ctx
  else if ctx.pbPktBuf.getD 1 0 = 112 then pktCaseReadReg pIf ctx
  else if ctx.pbPktBuf.getD 1 0 = 80 then pktCaseWriteReg pIf ctx
  else if ctx.pbPktBuf.getD 1 0 = 90 then pktCaseTpSet pIf ctx
  else if ctx.pbPktBuf.getD 1 0 = 122 then pktCaseTpClear pIf ctx
  else if ctx.pbPktBuf.getD 1 0 = 113 then
    gdbStubCtxPktProcessQuery pIf ctx (ctx.pbPktBuf.drop 2) (ctx.cbPkt - 1)
  else if ctx.pbPktBuf.getD 1 0 = 118 then
    gdbStubCtxPktProcessV pIf ctx (ctx.pbPktBuf.drop 2) (ctx.cbPkt - 1)
  else if ctx.pbPktBuf.getD 1 0 = 82 then pktCaseRestart pIf ctx
  else if ctx.pbPktBuf.getD 1 0 = 107 then ⟨ctx, [Event.tgtKill], pIf.pfnTgtKill⟩
  else ⟨ctx, gdbStubCtxReplySend [], GDBSTUB_INF_SUCCESS⟩

/-- gdbStubCtxPktProcess: the command dispatcher.  Entry is marked by
the `dispatchEnter` event; the body is the command switch, run only for
a non-empty packet. -/
def gdbStubCtxPktProcess (pIf : GDBSTUBIF) (ctx : GDBSTUBCTXINT) : GdbOut :=
  if ctx.cbPkt ≥ 1 then
    let r := gdbStubCtxPktProcessSwitch pIf ctx
    ⟨r.ctx, Event.dispatchEnter :: r.evs, r.rc⟩
  else ⟨ctx, [Event.dispatchEnter], GDBSTUB_INF_SUCCESS⟩

/-! The packet framer. -/

/-- gdbStubCtxPktBufReset: clear the write offset, the packet length
and the checksum countdown. -/
def gdbStubCtxPktBufReset (ctx : GDBSTUBCTXINT) : GDBSTUBCTXINT :=
  { ctx with offPktBuf := 0, cbPkt := 0, cbChksumRecvLeft := 2 }

/-- gdbStubCtxReset: return the framer to the wait-for-start state and
clear the packet offsets. -/
def gdbStubCtxReset (ctx : GDBSTUBCTXINT) : GDBSTUBCTXINT :=
  gdbStubCtxPktBufReset { ctx with enmState := .PACKET_WAIT_FOR_START }

/-- Result of one framer step: the stub output plus the number of new
bytes consumed (pcbProcessed). -/
structure FramerOut where
  out : GdbOut
  cbProcessed : Nat
deriving DecidableEq, Repr

/-- gdbStubCtxPktBufSearchStart: look for the start character in the
first `cbData` buffer bytes; on a hit shift the buffer so the start
character lands at offset 0 and enter the receive-body state, otherwise
honour an out-of-band interrupt byte (target stop plus `S05`) and drop
everything. -/
def gdbStubCtxPktBufSearchStart (pIf : GDBSTUBIF) (ctx : GDBSTUBCTXINT) (cbData : Nat) :
    FramerOut :=
  match gdbStubCtxMemchrIdx ctx.pbPktBuf GDBSTUB_PKT_START cbData with
  | some i =>
      let buf := (ctx.pbPktBuf.drop i).take (cbData - i) ++ ctx.pbPktBuf.drop (cbData - i)
      ⟨⟨{ ctx with pbPktBuf := buf, enmState := .PACKET_RECEIVE_BODY, offPktBuf := 0 },
        [], GDBSTUB_INF_SUCCESS⟩, i⟩
  | none =>
      let oob := (gdbStubCtxMemchrIdx ctx.pbPktBuf GDBSTUB_OOB_INTERRUPT cbData).isSome
      let r : List Event × Int :=
        if oob then
          if pIf.pfnTgtStop = GDBSTUB_INF_SUCCESS then
            (Event.tgtStop :: gdbStubCtxReplySendSigTrap, GDBSTUB_INF_SUCCESS)
          else ([Event.tgtStop], pIf.pfnTgtStop)
        else ([], GDBSTUB_INF_SUCCESS)
      ⟨⟨gdbStubCtxPktBufReset ctx, r.1, r.2⟩, cbData⟩

/-- gdbStubCtxPktBufSearchEnd: look for the end character among the
`cbData` new bytes past the write offset; on a hit advance past it,
record the packet length and enter the checksum state. -/
def gdbStubCtxPktBufSearchEnd (ctx : GDBSTUBCTXINT) (cbData : Nat) : FramerOut :=
  match gdbStubCtxMemchrIdx (ctx.pbPktBuf.drop ctx.offPktBuf) GDBSTUB_PKT_END cbData with
  | some j =>
      let cbProcessed := j + 1
      let off := ctx.offPktBuf + cbProcessed
      ⟨⟨{ ctx with enmState := .PACKET_RECEIVE_CHECKSUM, offPktBuf := off, cbPkt := off - 1 },
        [], GDBSTUB_INF_SUCCESS⟩, cbProcessed⟩
  | none =>
      ⟨⟨{ ctx with offPktBuf := ctx.offPktBuf + cbData }, [], GDBSTUB_INF_SUCCESS⟩, cbData⟩

/-- The modulo-256 sum of the packet body bytes, indices 1 to
`cbPkt - 1` of the packet buffer (the bytes strictly between the start
and end characters). -/
def pktBodySum (ctx : GDBSTUBCTXINT) : Nat :=
  gdbStubPktChksum ((ctx.pbPktBuf.take ctx.cbPkt).drop 1)

/-- The checksum value transmitted with the packet: the two hex
characters at the write offset, high nibble first (uint8 arithmetic,
so modulo 256). -/
def pktRecvChksum (ctx : GDBSTUBCTXINT) : Nat :=
  ((gdbStubCtxChrToHex (ctx.pbPktBuf.getD ctx.offPktBuf 0) <<< 4)
    ||| gdbStubCtxChrToHex (ctx.pbPktBuf.getD (ctx.offPktBuf + 1) 0)) % 256

/-- gdbStubCtxPktBufProcessChksum: consume up to the outstanding
checksum characters; once both have arrived verify the checksum, on a
match acknowledge with `+` and run the dispatcher, on a mismatch send
`-`, and reset the framer either way. -/
def gdbStubCtxPktBufProcessChksum (pIf : GDBSTUBIF) (ctx : GDBSTUBCTXINT) (cbData : Nat) :
    FramerOut :=
  let cbChksumProcessed := min cbData ctx.cbChksumRecvLeft
  let ctx1 := { ctx with cbChksumRecvLeft := ctx.cbChksumRecvLeft - cbChksumProcessed }
  if ctx1.cbChksumRecvLeft = 0 then
    if pktBodySum ctx1 = pktRecvChksum ctx1 then
      let d := gdbStubCtxPktProcess pIf ctx1
      ⟨⟨gdbStubCtxReset d.ctx, Event.ioWrite [43] :: d.evs, d.rc⟩, cbChksumProcessed⟩
    else
      ⟨⟨gdbStubCtxReset ctx1, [Event.ioWrite [45]], GDBSTUB_INF_SUCCESS⟩, cbChksumProcessed⟩
  else ⟨⟨ctx1, [], GDBSTUB_INF_SUCCESS⟩, cbChksumProcessed⟩

/-- The state dispatch of gdbStubCtxPktBufProcess: one framer step for
the current receive state. -/
def gdbStubCtxPktBufProcessStep (pIf : GDBSTUBIF) (ctx : GDBSTUBCTXINT) (cbData : Nat) :
    FramerOut :=
  match ctx.enmState with
  | .PACKET_WAIT_FOR_START => gdbStubCtxPktBufSearchStart pIf ctx cbData
  | .PACKET_RECEIVE_BODY => gdbStubCtxPktBufSearchEnd ctx cbData
  | .PACKET_RECEIVE_CHECKSUM => gdbStubCtxPktBufProcessChksum pIf ctx cbData
  | .INVALID => ⟨⟨ctx, [], GDBSTUB_ERR_INTERNAL_ERROR⟩, 0⟩

/-- Fuelled while-loop of gdbStubCtxPktBufProcess: keep stepping while
new bytes remain and the status is success.  The loop always terminates
because at most one step per packet consumes nothing (the
wait-to-body transition); the fuel `2 * cbData + 2` supplied by the
wrapper is therefore sufficient. -/
def gdbStubCtxPktBufProcessLoop (pIf : GDBSTUBIF) :
    Nat → GDBSTUBCTXINT → Nat → GdbOut
  | 0, ctx, _ => ⟨ctx, [], GDBSTUB_INF_SUCCESS⟩
  | fuel + 1, ctx, cbData =>
      if cbData = 0 then ⟨ctx, [], GDBSTUB_INF_SUCCESS⟩
      else
        let s := gdbStubCtxPktBufProcessStep pIf ctx cbData
        if s.out.rc = GDBSTUB_INF_SUCCESS then
          let rest := gdbStubCtxPktBufProcessLoop pIf fuel s.out.ctx (cbData - s.cbProcessed)
          ⟨rest.ctx, s.out.evs ++ rest.evs, rest.rc⟩
        else ⟨s.out.ctx, s.out.evs, s.out.rc⟩

/-- gdbStubCtxPktBufProcess: process `cbData` new bytes in the packet
buffer through the framer state machine. -/
def gdbStubCtxPktBufProcess (pIf : GDBSTUBIF) (ctx : GDBSTUBCTXINT) (cbData : Nat) : GdbOut :=
  gdbStubCtxPktBufProcessLoop pIf (2 * cbData + 2) ctx cbData

/-- The read-and-process body of one gdbStubCtxRecv loop iteration for
a chunk of available transport bytes: grow the packet buffer, read the
bytes to the write offset, and run the framer over them. -/
def gdbStubCtxRecvBytes (pIf : GDBSTUBIF) (ctx : GDBSTUBCTXINT) (bytes : List Nat) : GdbOut :=
  let e := gdbStubCtxEnsurePktBufSpace ctx bytes.length
  if e.2 = GDBSTUB_INF_SUCCESS then
    let ctx1 := { e.1 with pbPktBuf := writeBytes e.1.pbPktBuf e.1.offPktBuf bytes }
    gdbStubCtxPktBufProcess pIf ctx1 bytes.length
  else ⟨e.1, [], e.2⟩

/-- GDBStubCtxCreate: the freshly created session context for a target
interface (the packet buffer is unallocated, the feature bitset starts
with the target-description bit set, and the framer is reset). -/
def gdbStubCtxCreate (pIf : GDBSTUBIF) : GDBSTUBCTXINT :=
  let cRegs := pIf.paRegs.length
  let cbRegs := (pIf.paRegs.map (fun r => r.cRegBits / 8)).sum
  gdbStubCtxReset
    { enmState := .INVALID
      cbPktBufMax := 0
      offPktBuf := 0
      cbPkt := 0
      pbPktBuf := []
      cbChksumRecvLeft := 2
      enmTgtStateLast := .INVALID
      cRegs := cRegs
      cbRegs := cbRegs
      fFeatures := GDBSTUBCTX_FEATURES_F_TGT_DESC
      pbTgtXmlDesc := none
      cbTgtXmlDesc := 0
      fExtendedMode := false }

/-- GDBStubCtxReset: the public reset entry point; a NULL handle is an
invalid parameter, otherwise the context is reset in place. -/
def GDBStubCtxReset : Option GDBSTUBCTXINT → Option GDBSTUBCTXINT × Int
  | none => (none, GDBSTUB_ERR_INVALID_PARAMETER)
  | some ctx => (some (gdbStubCtxReset ctx), GDBSTUB_INF_SUCCESS)

/-- All bytes a computation wrote to the transport, in order. -/
def outBytes (evs : List Event) : List Nat :=
  (evs.map (fun e => match e with | .ioWrite bs => bs | _ => [])).flatten

/-- Whether an event is the dispatcher-entry marker. -/
def Event.isDispatch : Event → Bool
  | .dispatchEnter => true
  | _ => false

/-- Whether an event is a transport write. -/
def Event.isIoWrite : Event → Bool
  | .ioWrite _ => true
  | _ => false

/-- Number of dispatcher entries recorded in a trace. -/
def dispCount (evs : List Event) : Nat :=
  evs.countP Event.isDispatch

/-! Helper lemmas about lists and buffers. -/

theorem getD_append_left {l₁ l₂ : List Nat} {n : Nat} (d : Nat) (h : n < l₁.length) :
    (l₁ ++ l₂).getD n d = l₁.getD n d := by
  simp [List.getD_eq_getElem?_getD, List.getElem?_append, h]

theorem getD_append_right {l₁ l₂ : List Nat} {n : Nat} (d : Nat) (h : l₁.length ≤ n) :
    (l₁ ++ l₂).getD n d = l₂.getD (n - l₁.length) d := by
  simp [List.getD_eq_getElem?_getD, List.getElem?_append_right h]

theorem getD_take {l : List Nat} {n i : Nat} (d : Nat) (h : i < n) :
    (l.take n).getD i d = l.getD i d := by
  simp [List.getD_eq_getElem?_getD, List.getElem?_take, h]

theorem getD_replicate {n i a : Nat} (d : Nat) (h : i < n) :
    (List.replicate n a).getD i d = a := by
  simp [List.getD_eq_getElem?_getD, List.getElem?_replicate, h]

theorem writeBytes_length {buf data : List Nat} {off : Nat}
    (h : off + data.length ≤ buf.length) :
    (writeBytes buf off data).length = buf.length := by
  simp [writeBytes]
  omega

theorem writeBytes_getD_mid {buf data : List Nat} {off i : Nat} (d : Nat)
    (hoff : off ≤ buf.length) (h1 : off ≤ i) (h2 : i < off + data.length) :
    (writeBytes buf off data).getD i d = data.getD (i - off) d := by
  unfold writeBytes
  rw [List.append_assoc, getD_append_right d (by simp; omega),
    getD_append_left d (by simp; omega)]
  congr 1
  simp
  omega

theorem writeBytes_getD_lt {buf data : List Nat} {off i : Nat} (d : Nat)
    (h : i < off) (hoff : off ≤ buf.length) :
    (writeBytes buf off data).getD i d = buf.getD i d := by
  unfold writeBytes
  rw [List.append_assoc, getD_append_left d (by simp; omega), getD_take d h]

theorem hexOfBytes_length (l : List Nat) : (hexOfBytes l).length = 2 * l.length := by
  induction l with
  | nil => rfl
  | cons b rest ih => simp [hexOfBytes, ih]; omega

theorem hexOfBytes_append (l₁ l₂ : List Nat) :
    hexOfBytes (l₁ ++ l₂) = hexOfBytes l₁ ++ hexOfBytes l₂ := by
  induction l₁ with
  | nil => rfl
  | cons b rest ih => simp [hexOfBytes, ih]

theorem hexOfBytes_getD_even (l : List Nat) (i : Nat) (d : Nat) (h : i < l.length) :
    (hexOfBytes l).getD (2 * i) d = gdbStubCtxHexToChr (l.getD i 0 >>> 4) := by
  induction l generalizing i with
  | nil => simp at h
  | cons b rest ih =>
      match i with
      | 0 => simp [hexOfBytes]
      | i + 1 =>
          have : 2 * (i + 1) = (2 * i + 1) + 1 := by omega
          rw [this]
          simp only [hexOfBytes, List.getD_cons_succ]
          exact ih i (by simpa using h)

theorem hexOfBytes_getD_odd (l : List Nat) (i : Nat) (d : Nat) (h : i < l.length) :
    (hexOfBytes l).getD (2 * i + 1) d = gdbStubCtxHexToChr (l.getD i 0 &&& 0xf) := by
  induction l generalizing i with
  | nil => simp at h
  | cons b rest ih =>
      match i with
      | 0 => simp [hexOfBytes]
      | i + 1 =>
          have : 2 * (i + 1) + 1 = (2 * i + 1) + 2 := by omega
          rw [this]
          simp only [hexOfBytes, List.getD_cons_succ]
          exact ih i (by simpa using h)

/-! The dispatcher-entry marker appears nowhere inside the command
processors: only gdbStubCtxPktProcess itself emits it.  One lemma per
emitting function. -/

theorem dispCount_nil : dispCount [] = 0 := rfl

theorem dispCount_cons (e : Event) (l : List Event) :
    dispCount (e :: l) = dispCount l + (if e.isDispatch then 1 else 0) :=
  List.countP_cons _ _ _

theorem dispCount_append (a b : List Event) :
    dispCount (a ++ b) = dispCount a + dispCount b :=
  List.countP_append _ _ _

theorem dispCount_replySend (body : List Nat) : dispCount (gdbStubCtxReplySend body) = 0 := by
  simp only [gdbStubCtxReplySend]
  split <;> simp [dispCount, Event.isDispatch]

theorem dispCount_replySendOk : dispCount gdbStubCtxReplySendOk = 0 :=
  dispCount_replySend _

theorem dispCount_replySendErr (uErr : Nat) : dispCount (gdbStubCtxReplySendErr uErr) = 0 :=
  dispCount_replySend _

theorem dispCount_replySendSigTrap : dispCount gdbStubCtxReplySendSigTrap = 0 :=
  dispCount_replySend _

theorem dispCount_replySendErrSts (rc : Int) : dispCount (gdbStubCtxReplySendErrSts rc) = 0 :=
  dispCount_replySend _

theorem dispCount_memReadLoopF (pIf : GDBSTUBIF) (fuel : Nat) :
    ∀ buf off left addr cbRead,
      dispCount (memReadLoopF pIf fuel buf off left addr cbRead).2.1 = 0 := by
  induction fuel with
  | zero => intro buf off left addr cbRead; cases cbRead <;> rfl
  | succ n ih =>
      intro buf off left addr cbRead
      cases cbRead with
      | zero => rfl
      | succ m =>
          simp only [memReadLoopF]
          split
          · simp [dispCount, Event.isDispatch]
          · split
            · simp [dispCount, Event.isDispatch]
            · rw [dispCount_cons, ih]
              simp [Event.isDispatch]

theorem dispCount_memWriteLoopF (pIf : GDBSTUBIF) (fuel : Nat) :
    ∀ data left addr cbWrite,
      dispCount (memWriteLoopF pIf fuel data left addr cbWrite).1 = 0 := by
  induction fuel with
  | zero => intro data left addr cbWrite; cases cbWrite <;> rfl
  | succ n ih =>
      intro data left addr cbWrite
      cases cbWrite with
      | zero => rfl
      | succ m =>
          simp only [memWriteLoopF]
          split
          · simp [dispCount]
          · split
            · simp [dispCount, Event.isDispatch]
            · rw [dispCount_cons, ih]
              simp [Event.isDispatch]

theorem dispCount_queryTStatus (ctx : GDBSTUBCTXINT) :
    dispCount (gdbStubCtxPktProcessQueryTStatus ctx).evs = 0 :=
  dispCount_replySend _

theorem dispCount_featXmlRegs (pIf : GDBSTUBIF) (ctx : GDBSTUBCTXINT) (v : List Nat) (cb : Nat) :
    dispCount (gdbStubCtxPktProcessFeatXmlRegs pIf ctx v cb).evs = 0 := by
  cases h : featXmlRegsLoop (strBytes ((s_aGdbArchMapping pIf.enmArch).getD "")) v cb <;>
    simp [gdbStubCtxPktProcessFeatXmlRegs, h, dispCount]

theorem dispCount_querySupportedReply (ctx : GDBSTUBCTXINT) :
    dispCount (gdbStubCtxPktProcessQuerySupportedReply ctx) = 0 := by
  simp only [gdbStubCtxPktProcessQuerySupportedReply]
  split <;> exact dispCount_replySend _

theorem dispCount_querySupported (pIf : GDBSTUBIF) (ctx : GDBSTUBCTXINT)
    (a : List Nat) (cb : Nat) :
    dispCount (gdbStubCtxPktProcessQuerySupported pIf ctx a cb).evs = 0 := by
  simp only [gdbStubCtxPktProcessQuerySupported]
  split
  · rfl
  · split
    · exact dispCount_querySupportedReply _
    · rfl

theorem dispCount_xferReadReply (ctx : GDBSTUBCTXINT) (o c : Nat) (obj : List Nat) (cbObj : Nat) :
    dispCount (gdbStubCtxQueryXferReadReply ctx o c obj cbObj).evs = 0 := by
  simp only [gdbStubCtxQueryXferReadReply]
  repeat' split
  all_goals first
    | exact dispCount_replySend _
    | exact dispCount_replySendErr _

theorem dispCount_xferFeatRead (pIf : GDBSTUBIF) (ctx : GDBSTUBCTXINT)
    (a : List Nat) (cb : Nat) :
    dispCount (gdbStubCtxPktProcessQueryXferFeatRead pIf ctx a cb).evs = 0 := by
  simp only [gdbStubCtxPktProcessQueryXferFeatRead]
  repeat' split
  all_goals first
    | rfl
    | exact dispCount_xferReadReply _ _ _ _ _
    | exact dispCount_replySend _
    | exact dispCount_replySendErr _
    | exact dispCount_replySendErrSts _

theorem dispCount_cmdProcess (ctx : GDBSTUBCTXINT)
    (f : Option (List Nat) → Int × List Nat) (a : Option (List Nat)) :
    dispCount (gdbStubCtxCmdProcess ctx f a).evs = 0 := by
  simp only [gdbStubCtxCmdProcess]
  repeat' split
  all_goals first
    | exact dispCount_replySend _
    | exact dispCount_replySendErrSts _

theorem dispCount_queryRcmd (pIf : GDBSTUBIF) (ctx : GDBSTUBCTXINT)
    (a : List Nat) (cb : Nat) :
    dispCount (gdbStubCtxPktProcessQueryRcmd pIf ctx a cb).evs = 0 := by
  simp only [gdbStubCtxPktProcessQueryRcmd]
  repeat' split
  all_goals first
    | rfl
    | exact dispCount_cmdProcess _ _ _
    | exact dispCount_replySendErrSts _

theorem dispCount_query (pIf : GDBSTUBIF) (ctx : GDBSTUBCTXINT) (q : List Nat) (cb : Nat) :
    dispCount (gdbStubCtxPktProcessQuery pIf ctx q cb).evs = 0 := by
  simp only [gdbStubCtxPktProcessQuery]
  repeat' split
  all_goals first
    | exact dispCount_queryTStatus _
    | exact dispCount_querySupported _ _ _ _
    | exact dispCount_xferFeatRead _ _ _ _
    | exact dispCount_queryRcmd _ _ _ _
    | exact dispCount_replySend _

theorem dispCount_vCont (pIf : GDBSTUBIF) (ctx : GDBSTUBCTXINT) (a : List Nat) (cb : Nat) :
    dispCount (gdbStubCtxPktProcessVCont pIf ctx a cb).evs = 0 := by
  simp only [gdbStubCtxPktProcessVCont]
  repeat' split
  all_goals first
    | exact dispCount_replySendErrSts _
    | (rw [dispCount_cons, dispCount_replySendSigTrap]; simp [Event.isDispatch])
    | (rw [dispCount_cons, dispCount_nil]; simp [Event.isDispatch])

theorem dispCount_v (pIf : GDBSTUBIF) (ctx : GDBSTUBCTXINT) (a : List Nat) (cb : Nat) :
    dispCount (gdbStubCtxPktProcessV pIf ctx a cb).evs = 0 := by
  simp only [gdbStubCtxPktProcessV]
  split
  · split
    · exact dispCount_replySend _
    · exact dispCount_vCont _ _ _ _
  · exact dispCount_replySend _

theorem dispCount_memReadLoop (pIf : GDBSTUBIF) (buf : List Nat) (off left addr cb : Nat) :
    dispCount (memReadLoop pIf buf off left addr cb).2.1 = 0 :=
  dispCount_memReadLoopF pIf cb buf off left addr cb

theorem dispCount_memWriteLoop (pIf : GDBSTUBIF) (data : List Nat) (left addr cb : Nat) :
    dispCount (memWriteLoop pIf data left addr cb).1 = 0 :=
  dispCount_memWriteLoopF pIf cb data left addr cb

theorem dispCount_caseExtendedMode (pIf : GDBSTUBIF) (ctx : GDBSTUBCTXINT) :
    dispCount (pktCaseExtendedMode pIf ctx).evs = 0 := by
  simp only [pktCaseExtendedMode]
  split
  · exact dispCount_replySendOk
  · exact dispCount_replySend _

theorem dispCount_caseStep (pIf : GDBSTUBIF) (ctx : GDBSTUBCTXINT) :
    dispCount (pktCaseStep pIf ctx).evs = 0 := by
  simp only [pktCaseStep]
  split <;> rw [dispCount_cons] <;>
    simp [Event.isDispatch, dispCount_replySendSigTrap, dispCount_nil]

theorem dispCount_caseCont (pIf : GDBSTUBIF) (ctx : GDBSTUBCTXINT) :
    dispCount (pktCaseCont pIf ctx).evs = 0 := by
  simp only [pktCaseCont]
  split <;> rw [dispCount_cons] <;> simp [Event.isDispatch, dispCount_nil]

theorem dispCount_caseReadRegs (pIf : GDBSTUBIF) (ctx : GDBSTUBCTXINT) :
    dispCount (pktCaseReadRegs pIf ctx).evs = 0 := by
  simp only [pktCaseReadRegs]
  repeat' split
  all_goals rw [dispCount_cons] <;>
    simp [Event.isDispatch, dispCount_replySend, dispCount_replySendErrSts]

theorem dispCount_caseReadMem (pIf : GDBSTUBIF) (ctx : GDBSTUBCTXINT) :
    dispCount (pktCaseReadMem pIf ctx).evs = 0 := by
  simp only [pktCaseReadMem]
  repeat' split
  all_goals first
    | exact dispCount_replySendErrSts _
    | (rw [dispCount_append]
       simp [dispCount_memReadLoop, dispCount_replySend, dispCount_replySendErrSts])

theorem dispCount_caseWriteMem (pIf : GDBSTUBIF) (ctx : GDBSTUBCTXINT) :
    dispCount (pktCaseWriteMem pIf ctx).evs = 0 := by
  simp only [pktCaseWriteMem]
  repeat' split
  all_goals
    rw [dispCount_append]
    simp [dispCount_memWriteLoop, dispCount_replySendOk, dispCount_replySendErrSts]

theorem dispCount_caseReadReg (pIf : GDBSTUBIF) (ctx : GDBSTUBCTXINT) :
    dispCount (pktCaseReadReg pIf ctx).evs = 0 := by
  simp only [pktCaseReadReg]
  repeat' split
  all_goals first
    | exact dispCount_replySendErrSts _
    | (rw [dispCount_cons]
       simp [Event.isDispatch, dispCount_replySend, dispCount_replySendErrSts])

theorem dispCount_caseWriteReg (pIf : GDBSTUBIF) (ctx : GDBSTUBCTXINT) :
    dispCount (pktCaseWriteReg pIf ctx).evs = 0 := by
  simp only [pktCaseWriteReg]
  repeat' split
  all_goals first
    | rfl
    | exact dispCount_replySendErrSts _
    | (rw [dispCount_cons]
       simp [Event.isDispatch, dispCount_replySend, dispCount_replySendOk,
         dispCount_replySendErrSts])

theorem dispCount_caseTpSet (pIf : GDBSTUBIF) (ctx : GDBSTUBCTXINT) :
    dispCount (pktCaseTpSet pIf ctx).evs = 0 := by
  unfold pktCaseTpSet
  rcases hp : gdbStubCtxParseTpPktArgs (ctx.pbPktBuf.drop 2) (ctx.cbPkt - 1) with e | r
  · exact dispCount_replySendErrSts _
  · simp only []
    repeat' split
    all_goals
      rw [dispCount_append]
      simp [dispCount_cons, dispCount_nil, Event.isDispatch, dispCount_replySend,
        dispCount_replySendOk, dispCount_replySendErrSts]

theorem dispCount_caseTpClear (pIf : GDBSTUBIF) (ctx : GDBSTUBCTXINT) :
    dispCount (pktCaseTpClear pIf ctx).evs = 0 := by
  unfold pktCaseTpClear
  rcases hp : gdbStubCtxParseTpPktArgs (ctx.pbPktBuf.drop 2) (ctx.cbPkt - 1) with e | r
  · exact dispCount_replySendErrSts _
  · simp only []
    repeat' split
    all_goals
      rw [dispCount_append]
      simp [dispCount_cons, dispCount_nil, Event.isDispatch, dispCount_replySend,
        dispCount_replySendOk, dispCount_replySendErrSts]

theorem dispCount_caseRestart (pIf : GDBSTUBIF) (ctx : GDBSTUBCTXINT) :
    dispCount (pktCaseRestart pIf ctx).evs = 0 := by
  simp only [pktCaseRestart]
  split
  · rw [dispCount_cons]
    simp [Event.isDispatch, dispCount_nil]
  · exact dispCount_replySend _

theorem dispCount_switch (pIf : GDBSTUBIF) (ctx : GDBSTUBCTXINT) :
    dispCount (gdbStubCtxPktProcessSwitch pIf ctx).evs = 0 := by
  unfold gdbStubCtxPktProcessSwitch
  by_cases h33 : ctx.pbPktBuf.getD 1 0 = 33
  · rw [if_pos h33]
    exact dispCount_caseExtendedMode _ _
  · rw [if_neg h33]
    by_cases h63 : ctx.pbPktBuf.getD 1 0 = 63
    · rw [if_pos h63]
      exact dispCount_replySendSigTrap
    · rw [if_neg h63]
      by_cases h115 : ctx.pbPktBuf.getD 1 0 = 115
      · rw [if_pos h115]
        exact dispCount_caseStep _ _
      · rw [if_neg h115]
        by_cases h99 : ctx.pbPktBuf.getD 1 0 = 99
        · rw [if_pos h99]
          exact dispCount_caseCont _ _
        · rw [if_neg h99]
          by_cases h103 : ctx.pbPktBuf.getD 1 0 = 103
          · rw [if_pos h103]
            exact dispCount_caseReadRegs _ _
          · rw [if_neg h103]
            by_cases h109 : ctx.pbPktBuf.getD 1 0 = 109
            · rw [if_pos h109]
              exact dispCount_caseReadMem _ _
            · rw [if_neg h109]
              by_cases h77 : ctx.pbPktBuf.getD 1 0 = 77
              · rw [if_pos h77]
                exact dispCount_caseWriteMem _ _
              · rw [if_neg h77]
                by_cases h112 : ctx.pbPktBuf.getD 1 0 = 112
                · rw [if_pos h112]
                  exact dispCount_caseReadReg _ _
                · rw [if_neg h112]
                  by_cases h80 : ctx.pbPktBuf.getD 1 0 = 80
                  · rw [if_pos h80]
                    exact dispCount_caseWriteReg _ _
                  · rw [if_neg h80]
                    by_cases h90 : ctx.pbPktBuf.getD 1 0 = 90
                    · rw [if_pos h90]
                      exact dispCount_caseTpSet _ _
                    · rw [if_neg h90]
                      by_cases h122 : ctx.pbPktBuf.getD 1 0 = 122
                      · rw [if_pos h122]
                        exact dispCount_caseTpClear _ _
                      · rw [if_neg h122]
                        by_cases h113 : ctx.pbPktBuf.getD 1 0 = 113
                        · rw [if_pos h113]
                          exact dispCount_query _ _ _ _
                        · rw [if_neg h113]
                          by_cases h118 : ctx.pbPktBuf.getD 1 0 = 118
                          · rw [if_pos h118]
                            exact dispCount_v _ _ _ _
                          · rw [if_neg h118]
                            by_cases h82 : ctx.pbPktBuf.getD 1 0 = 82
                            · rw [if_pos h82]
                              exact dispCount_caseRestart _ _
                            · rw [if_neg h82]
                              by_cases h107 : ctx.pbPktBuf.getD 1 0 = 107
                              · rw [if_pos h107]
                                (rw [dispCount_cons]; simp [Event.isDispatch, dispCount_nil])
                              · rw [if_neg h107]
                                exact dispCount_replySend _

/-- The dispatcher emits its entry marker exactly once per invocation
and nowhere else. -/
theorem dispCount_pktProcess (pIf : GDBSTUBIF) (ctx : GDBSTUBCTXINT) :
    dispCount (gdbStubCtxPktProcess pIf ctx).evs = 1 := by
  simp only [gdbStubCtxPktProcess]
  split
  · rw [dispCount_cons, dispCount_switch]
    simp [Event.isDispatch]
  · rw [dispCount_cons, dispCount_nil]
    simp [Event.isDispatch]

/-! Concrete fixtures used to instantiate claims on sample runs. -/

/-- A sample target adapter: one 32-bit general-purpose register on an
x86 target, memory reading one-bytes at address block zero and
two-bytes beyond, every operation succeeding. -/
def pIfSample : GDBSTUBIF where
  enmArch := .X86
  paRegs := [⟨"eax", 32, .GP⟩]
  hasTgtRestart := false
  hasTgtTpSet := false
  hasTgtTpClear := false
  paCmds := some []
  pfnTgtGetState := .STOPPED
  pfnTgtStop := GDBSTUB_INF_SUCCESS
  pfnTgtRestart := GDBSTUB_INF_SUCCESS
  pfnTgtKill := GDBSTUB_INF_SUCCESS
  pfnTgtStep := GDBSTUB_INF_SUCCESS
  pfnTgtCont := GDBSTUB_INF_SUCCESS
  pfnTgtMemRead := fun addr cb => (GDBSTUB_INF_SUCCESS,
    List.replicate cb (if addr = 0 then 1 else 2))
  pfnTgtMemWrite := fun _ _ => GDBSTUB_INF_SUCCESS
  pfnTgtRegsRead := fun idxs => (GDBSTUB_INF_SUCCESS, List.replicate (4 * idxs.length) 0x11)
  pfnTgtRegsWrite := fun _ _ => GDBSTUB_INF_SUCCESS
  pfnTgtTpSet := fun _ _ _ => GDBSTUB_INF_SUCCESS
  pfnTgtTpClear := fun _ => GDBSTUB_INF_SUCCESS

/-! Claim C9. -/

/-- Claim C9: after every call to GDBStubCtxReset on a valid handle the
receive state is the wait-for-start state, the write offset, packet
length and checksum countdown are cleared (0, 0 and 2 respectively),
while the packet buffer and its capacity, the negotiated feature
bitset, the cached target description and its size, and the
extended-mode flag keep the values they had before the call. -/
theorem C9_reset_returns_framer_retains_buffers (ctx : GDBSTUBCTXINT) :
    ∃ ctx2, GDBStubCtxReset (some ctx) = (some ctx2, GDBSTUB_INF_SUCCESS)
      ∧ ctx2.enmState = GDBSTUBRECVSTATE.PACKET_WAIT_FOR_START
      ∧ ctx2.offPktBuf = 0 ∧ ctx2.cbPkt = 0 ∧ ctx2.cbChksumRecvLeft = 2
      ∧ ctx2.pbPktBuf = ctx.pbPktBuf ∧ ctx2.cbPktBufMax = ctx.cbPktBufMax
      ∧ ctx2.fFeatures = ctx.fFeatures ∧ ctx2.pbTgtXmlDesc = ctx.pbTgtXmlDesc
      ∧ ctx2.cbTgtXmlDesc = ctx.cbTgtXmlDesc ∧ ctx2.fExtendedMode = ctx.fExtendedMode :=
  ⟨_, rfl, rfl, rfl, rfl, rfl, rfl, rfl, rfl, rfl, rfl, rfl⟩

/-! Claim C4. -/

/-- Context at the C4 failing input: a 50-byte buffer entirely filled
by an in-flight packet body (write offset 50, capacity 50). -/
def c4Ctx : GDBSTUBCTXINT :=
  { gdbStubCtxCreate pIfSample with
      enmState := .PACKET_RECEIVE_BODY
      cbPktBufMax := 50
      offPktBuf := 50
      pbPktBuf := List.replicate 50 36 }

/-- Claim C4 (refuted on the code): requesting 10 further bytes of
space from gdbStubCtxEnsurePktBufSpace on a buffer of capacity 50 whose
write offset is 50 reallocates the buffer with the smaller capacity
`50 - 50 + 10 = 10` and reports success, so the capacity shrinks from
50 to 10 outside any reset point, contradicting monotone growth (and
the C code then copies the 50 buffered bytes into that 10-byte
allocation). -/
theorem C4_ensure_pktbuf_space_shrinks_capacity :
    c4Ctx.offPktBuf = 50 ∧ c4Ctx.cbPktBufMax = 50
      ∧ (gdbStubCtxEnsurePktBufSpace c4Ctx 10).2 = GDBSTUB_INF_SUCCESS
      ∧ (gdbStubCtxEnsurePktBufSpace c4Ctx 10).1.cbPktBufMax = 10
      ∧ ¬ c4Ctx.cbPktBufMax ≤ (gdbStubCtxEnsurePktBufSpace c4Ctx 10).1.cbPktBufMax := by
  refine ⟨rfl, rfl, ?_, ?_, ?_⟩ <;> decide

/-! Claim C7. -/

theorem chrToHex_hexToChr (d : Nat) (h : d < 16) :
    gdbStubCtxChrToHex (gdbStubCtxHexToChr d) = d := by
  interval_cases d <;> rfl

theorem chrToHex_lower_upper (c : Nat) (h1 : 97 ≤ c) (h2 : c ≤ 102) :
    gdbStubCtxChrToHex c = gdbStubCtxChrToHex (c - 32) := by
  simp only [gdbStubCtxChrToHex]
  split_ifs <;> omega

theorem hexToChr_is_digit_or_upper (d : Nat) (h : d < 16) :
    (48 ≤ gdbStubCtxHexToChr d ∧ gdbStubCtxHexToChr d ≤ 57)
      ∨ (65 ≤ gdbStubCtxHexToChr d ∧ gdbStubCtxHexToChr d ≤ 70) := by
  simp only [gdbStubCtxHexToChr]
  split_ifs <;> omega

theorem lor_nibbles (hi lo : Nat) (h1 : hi < 16) (h2 : lo < 16) :
    (hi <<< 4) ||| lo = 16 * hi + lo := by
  interval_cases hi <;> interval_cases lo <;> rfl

theorem hex_byte_roundtrip (b : Nat) (h : b < 256) :
    ((gdbStubCtxChrToHex (gdbStubCtxHexToChr (b >>> 4)) <<< 4)
      ||| gdbStubCtxChrToHex (gdbStubCtxHexToChr (b &&& 0xf))) % 256 = b := by
  have hhi : b >>> 4 < 16 := by
    rw [Nat.shiftRight_eq_div_pow]
    omega
  have hlo : b &&& 0xf < 16 := by
    have := @Nat.and_le_right b 0xf
    omega
  rw [chrToHex_hexToChr _ hhi, chrToHex_hexToChr _ hlo, lor_nibbles _ _ hhi hlo]
  have hm : b &&& 0xf = b % 16 := by
    have := Nat.and_pow_two_sub_one_eq_mod b 4
    simpa using this
  have hd : b >>> 4 = b / 16 := by
    rw [Nat.shiftRight_eq_div_pow]
  rw [hm, hd]
  omega

theorem nibble_hi_lt (b : Nat) (h : b < 256) : b >>> 4 < 16 := by
  rw [Nat.shiftRight_eq_div_pow]
  omega

theorem nibble_lo_lt (b : Nat) : b &&& 0xf < 16 := by
  have := @Nat.and_le_right b 0xf
  omega

theorem parseHexPairs_hexOfBytes (B : List Nat) (hB : ∀ b ∈ B, b < 256) :
    parseHexPairs (hexOfBytes B) (2 * B.length) B.length = B := by
  induction B with
  | nil => rfl
  | cons b rest ih =>
      have h2 : 2 * (b :: rest).length = 2 * rest.length + 1 + 1 := by
        simp [List.length_cons]
        ring
      rw [h2]
      show parseHexPairs
        (gdbStubCtxHexToChr (b >>> 4) :: gdbStubCtxHexToChr (b &&& 0xf) :: hexOfBytes rest)
        (2 * rest.length + 1 + 1) (rest.length + 1) = b :: rest
      simp only [parseHexPairs, List.getD_cons_zero, List.getD_cons_succ, List.drop_succ_cons,
        List.drop_zero]
      rw [hex_byte_roundtrip b (hB b (by simp))]
      have : 2 * rest.length + 1 + 1 - 2 = 2 * rest.length := by omega
      rw [this, ih (fun x hx => hB x (by simp [hx]))]

/-- Claim C7: the hex codec round-trips.  For every byte sequence B,
the encoder succeeds into a destination of twice the length and emits
two hex characters per byte (uppercase digits, high nibble first at
even positions, low nibble at odd positions), the decoder with a
destination of length |B| returns B and consumes all 2·|B|
characters, and the digit decoder accepts lower-case digits exactly as
their upper-case forms. -/
theorem C7_hex_codec_roundtrip (B : List Nat) (hB : ∀ b ∈ B, b < 256) :
    gdbStubCtxEncodeBinaryAsHex (2 * B.length) B = .ok (hexOfBytes B)
    ∧ gdbStubCtxParseHexStringAsByteBuf (hexOfBytes B) (hexOfBytes B).length B.length
        = .ok (B, 2 * B.length)
    ∧ (∀ i, i < B.length →
        (hexOfBytes B).getD (2 * i) 0 = gdbStubCtxHexToChr (B.getD i 0 >>> 4)
        ∧ (hexOfBytes B).getD (2 * i + 1) 0 = gdbStubCtxHexToChr (B.getD i 0 &&& 0xf))
    ∧ (∀ c ∈ hexOfBytes B, (48 ≤ c ∧ c ≤ 57) ∨ (65 ≤ c ∧ c ≤ 70))
    ∧ (∀ c, 97 ≤ c → c ≤ 102 → gdbStubCtxChrToHex c = gdbStubCtxChrToHex (c - 32)) := by
  refine ⟨?_, ?_, ?_, ?_, fun c h1 h2 => chrToHex_lower_upper c h1 h2⟩
  · simp only [gdbStubCtxEncodeBinaryAsHex]
    rw [if_neg (by omega)]
  · simp only [gdbStubCtxParseHexStringAsByteBuf, hexOfBytes_length]
    have hmin : 2 * B.length ⊓ B.length * 2 = 2 * B.length := by omega
    rw [hmin]
    rw [if_neg (by omega)]
    rw [parseHexPairs_hexOfBytes B hB]
  · intro i hi
    exact ⟨hexOfBytes_getD_even B i 0 hi, hexOfBytes_getD_odd B i 0 hi⟩
  · intro c hc
    induction B with
    | nil => simp [hexOfBytes] at hc
    | cons b rest ih =>
        simp only [hexOfBytes, List.mem_cons] at hc
        rcases hc with h | h | h
        · subst h
          exact hexToChr_is_digit_or_upper _ (nibble_hi_lt b (hB b (by simp)))
        · subst h
          exact hexToChr_is_digit_or_upper _ (nibble_lo_lt b)
        · exact ih (fun x hx => hB x (by simp [hx])) h

/-- Witness for C7 at the byte sequence [0x12, 0xAB]. -/
theorem C7_hex_codec_roundtrip_witness :
    (∀ b ∈ [18, 171], b < 256)
    ∧ gdbStubCtxParseHexStringAsByteBuf (hexOfBytes [18, 171]) (hexOfBytes [18, 171]).length
        ([18, 171] : List Nat).length = .ok ([18, 171], 2 * ([18, 171] : List Nat).length) :=
  ⟨by decide, (C7_hex_codec_roundtrip [18, 171] (by decide)).2.1⟩

/-! Claim C3. -/

/-- Counterexample for claim C3: the packet `$qSupported:#37` carries
checksum 0x37, but the modulo-256 sum of the body `qSupported:` is 0x71,
so a fresh session context answers with the single NACK byte `-` and no
ack or framed reply; in particular the output is not `+` followed by
the framed reply with body `qXfer:features:read+` that the claim
demands. -/
theorem C3_qsupported_hash37_counterexample :
    outBytes (gdbStubCtxRecvBytes pIfSample (gdbStubCtxCreate pIfSample)
      (strBytes "$qSupported:#37")).evs = [45]
    ∧ gdbStubPktChksum (strBytes "qSupported:") = 0x71
    ∧ ([45] : List Nat)
        ≠ strBytes "+" ++ outBytes (gdbStubCtxReplySend (strBytes "qXfer:features:read+")) := by
  refine ⟨by decide, by decide, by decide⟩

/-- Claim C3 amended: with the correct checksum 0x71, a freshly
created session context receiving `$qSupported:#71` outputs the ack `+`
followed by the framed reply whose body is exactly
`qXfer:features:read+` (wire bytes `+$qXfer:features:read+#A0`). -/
theorem C3_qsupported_correct_checksum :
    outBytes (gdbStubCtxRecvBytes pIfSample (gdbStubCtxCreate pIfSample)
      (strBytes "$qSupported:#71")).evs
      = strBytes "+" ++ outBytes (gdbStubCtxReplySend (strBytes "qXfer:features:read+"))
    ∧ strBytes "+" ++ outBytes (gdbStubCtxReplySend (strBytes "qXfer:features:read+"))
      = strBytes "+$qXfer:features:read+#A0" := by
  refine ⟨by decide, by decide⟩

/-! Claim C5. -/

theorem strBytes_append (a b : String) : strBytes (a ++ b) = strBytes a ++ strBytes b := by
  simp [strBytes]

/-- Counterexample for claim C5: the source maps the AMD64 architecture
tag to the architecture string `i386`, not `i386:x86-64`, and to the
feature name `org.gnu.gdb.arm.core`, which is not
`org.gnu.gdb.<arch>.core` for its architecture string. -/
theorem C5_amd64_mapping_counterexample :
    s_aGdbArchMapping GDBSTUBTGTARCH.AMD64 = some "i386"
    ∧ s_aGdbArchMapping GDBSTUBTGTARCH.AMD64 ≠ some "i386:x86-64"
    ∧ s_aGdbArchFeatMapping GDBSTUBTGTARCH.AMD64 = some "org.gnu.gdb.arm.core"
    ∧ s_aGdbArchFeatMapping GDBSTUBTGTARCH.AMD64
        ≠ some ("org.gnu.gdb."
            ++ (s_aGdbArchMapping GDBSTUBTGTARCH.AMD64).getD "" ++ ".core") := by
  refine ⟨rfl, by decide, rfl, by decide⟩

/-- Claim C5 amended: the architecture table maps ARM to `arm`, x86 to
`i386` and AMD64 to `i386` (not `i386:x86-64`); the feature table maps
ARM to `org.gnu.gdb.arm.core`, x86 to `org.gnu.gdb.i386.core`, and
AMD64 to `org.gnu.gdb.arm.core`, so the feature name matches
`org.gnu.gdb.<arch>.core` for ARM and x86 but not for AMD64; and the
target-description builder emits exactly these strings in the
`<architecture>` element and the `<feature name=...>` attribute for
every register table. -/
theorem C5_arch_mapping_amended (paRegs : List GDBSTUBREG) :
    s_aGdbArchMapping GDBSTUBTGTARCH.ARM = some "arm"
    ∧ s_aGdbArchMapping GDBSTUBTGTARCH.X86 = some "i386"
    ∧ s_aGdbArchMapping GDBSTUBTGTARCH.AMD64 = some "i386"
    ∧ s_aGdbArchFeatMapping GDBSTUBTGTARCH.ARM = some ("org.gnu.gdb." ++ "arm" ++ ".core")
    ∧ s_aGdbArchFeatMapping GDBSTUBTGTARCH.X86 = some ("org.gnu.gdb." ++ "i386" ++ ".core")
    ∧ s_aGdbArchFeatMapping GDBSTUBTGTARCH.AMD64
        ≠ some ("org.gnu.gdb."
            ++ (s_aGdbArchMapping GDBSTUBTGTARCH.AMD64).getD "" ++ ".core")
    ∧ xmlDescWritten GDBSTUBTGTARCH.ARM paRegs
        = strBytes (s_szXmlTgtHdr ++ "<architecture>" ++ "arm" ++ "</architecture>\n"
            ++ "<feature name=\"" ++ "org.gnu.gdb.arm.core" ++ "\">\n")
          ++ (paRegs.map xmlRegBytes).flatten
          ++ strBytes ("</feature>\n" ++ s_szXmlTgtFooter)
    ∧ xmlDescWritten GDBSTUBTGTARCH.X86 paRegs
        = strBytes (s_szXmlTgtHdr ++ "<architecture>" ++ "i386" ++ "</architecture>\n"
            ++ "<feature name=\"" ++ "org.gnu.gdb.i386.core" ++ "\">\n")
          ++ (paRegs.map xmlRegBytes).flatten
          ++ strBytes ("</feature>\n" ++ s_szXmlTgtFooter)
    ∧ xmlDescWritten GDBSTUBTGTARCH.AMD64 paRegs
        = strBytes (s_szXmlTgtHdr ++ "<architecture>" ++ "i386" ++ "</architecture>\n"
            ++ "<feature name=\"" ++ "org.gnu.gdb.arm.core" ++ "\">\n")
          ++ (paRegs.map xmlRegBytes).flatten
          ++ strBytes ("</feature>\n" ++ s_szXmlTgtFooter) := by
  refine ⟨rfl, rfl, rfl, by decide, by decide, by decide, ?_, ?_, ?_⟩ <;>
    simp [xmlDescWritten, strBytes_append, s_aGdbArchMapping, s_aGdbArchFeatMapping,
      List.append_assoc]

/-! Claim C8. -/

/-- Counterexample for claim C8: a `qRcmd` whose hex command is 8192
characters (4096 bytes, the full scratch size) makes the handler return
GDBSTUB_ERR_BUFFER_OVERFLOW to its caller with an empty event trace:
nothing — in particular no `E NN` error reply — is sent to GDB. -/
theorem C8_rcmd_overflow_counterexample :
    (gdbStubCtxPktProcessQueryRcmd pIfSample (gdbStubCtxCreate pIfSample)
      (44 :: List.replicate 8192 97) 8193).evs = []
    ∧ (gdbStubCtxPktProcessQueryRcmd pIfSample (gdbStubCtxCreate pIfSample)
      (44 :: List.replicate 8192 97) 8193).rc = GDBSTUB_ERR_BUFFER_OVERFLOW
    ∧ outBytes (gdbStubCtxPktProcessQueryRcmd pIfSample (gdbStubCtxCreate pIfSample)
      (44 :: List.replicate 8192 97) 8193).evs = [] :=
  ⟨rfl, rfl, rfl⟩

/-- Claim C8 amended: for every `qRcmd,<hex>` packet whose decoded
command would need at least the 4096-byte scratch, the handler returns
GDBSTUB_ERR_BUFFER_OVERFLOW to the caller and emits nothing on the
wire (the overflow is not surfaced to GDB as an `E NN` reply). -/
theorem C8_rcmd_overflow_amended (pIf : GDBSTUBIF) (ctx : GDBSTUBCTXINT)
    (args : List Nat) (cbArgs : Nat)
    (cmds : List (String × (Option (List Nat) → Int × List Nat)))
    (h1 : 1 ≤ cbArgs) (h2 : args.getD 0 0 = 44) (h3 : pIf.paCmds = some cmds)
    (h4 : 4096 ≤ (cbArgs - 1) / 2) :
    gdbStubCtxPktProcessQueryRcmd pIf ctx args cbArgs
      = ⟨ctx, [], GDBSTUB_ERR_BUFFER_OVERFLOW⟩ := by
  unfold gdbStubCtxPktProcessQueryRcmd
  rw [if_neg (by
    rintro (hlt | hne)
    · omega
    · exact hne h2)]
  simp only [h3]
  rw [if_pos h4]

/-- Witness for C8 at the 8192-character command. -/
theorem C8_rcmd_overflow_amended_witness :
    (1 ≤ 8193) ∧ ((44 : Nat) :: List.replicate 8192 97).getD 0 0 = 44
    ∧ pIfSample.paCmds = some [] ∧ 4096 ≤ (8193 - 1) / 2
    ∧ gdbStubCtxPktProcessQueryRcmd pIfSample (gdbStubCtxCreate pIfSample)
        (44 :: List.replicate 8192 97) 8193
        = ⟨gdbStubCtxCreate pIfSample, [], GDBSTUB_ERR_BUFFER_OVERFLOW⟩ :=
  ⟨by omega, rfl, rfl, by omega,
    C8_rcmd_overflow_amended pIfSample (gdbStubCtxCreate pIfSample)
      (44 :: List.replicate 8192 97) 8193 [] (by omega) rfl rfl (by omega)⟩

/-! Claim C1. -/

/-- Claim C1: once both checksum characters have arrived
(`cbChksumRecvLeft ≤ cbData`), gdbStubCtxPktBufProcessChksum compares
the transmitted checksum (two hex characters, either case, at the write
offset) against the modulo-256 sum of the bytes strictly between `$`
and `#`.  On a match it writes the single ack byte `+` and then runs
the command dispatcher exactly once (the trace is the ack followed by
exactly the dispatcher's trace, which holds exactly one dispatcher
entry); on a mismatch it writes the single byte `-` and the dispatcher
never runs (no dispatcher entry in the trace); in both cases the framer
returns to the wait-for-start state. -/
theorem C1_checksum_ack_and_single_dispatch (pIf : GDBSTUBIF) (ctx : GDBSTUBCTXINT)
    (cbData : Nat) (hArrive : ctx.cbChksumRecvLeft ≤ cbData) :
    (pktBodySum { ctx with cbChksumRecvLeft := 0 }
        = pktRecvChksum { ctx with cbChksumRecvLeft := 0 } →
      (gdbStubCtxPktBufProcessChksum pIf ctx cbData).out.evs
        = Event.ioWrite [43]
            :: (gdbStubCtxPktProcess pIf { ctx with cbChksumRecvLeft := 0 }).evs
      ∧ dispCount (gdbStubCtxPktBufProcessChksum pIf ctx cbData).out.evs = 1
      ∧ (gdbStubCtxPktBufProcessChksum pIf ctx cbData).out.ctx.enmState
          = GDBSTUBRECVSTATE.PACKET_WAIT_FOR_START)
    ∧ (pktBodySum { ctx with cbChksumRecvLeft := 0 }
        ≠ pktRecvChksum { ctx with cbChksumRecvLeft := 0 } →
      (gdbStubCtxPktBufProcessChksum pIf ctx cbData).out.evs = [Event.ioWrite [45]]
      ∧ dispCount (gdbStubCtxPktBufProcessChksum pIf ctx cbData).out.evs = 0
      ∧ (gdbStubCtxPktBufProcessChksum pIf ctx cbData).out.ctx.enmState
          = GDBSTUBRECVSTATE.PACKET_WAIT_FOR_START
      ∧ (gdbStubCtxPktBufProcessChksum pIf ctx cbData).out.rc = GDBSTUB_INF_SUCCESS) := by
  have hmin : min cbData ctx.cbChksumRecvLeft = ctx.cbChksumRecvLeft :=
    Nat.min_eq_right hArrive
  simp only [gdbStubCtxPktBufProcessChksum, hmin, Nat.sub_self]
  constructor
  · intro h
    rw [if_true, if_pos h]
    exact ⟨rfl, by
      rw [dispCount_cons, dispCount_pktProcess]
      simp [Event.isDispatch], rfl⟩
  · intro h
    rw [if_true, if_neg h]
    exact ⟨rfl, rfl, rfl, rfl⟩

/-- Session context holding the completely framed packet `$g#67`
(correct checksum), two checksum characters pending. -/
def c1CtxGood : GDBSTUBCTXINT :=
  { gdbStubCtxCreate pIfSample with
      enmState := .PACKET_RECEIVE_CHECKSUM
      pbPktBuf := strBytes "$g#67"
      cbPktBufMax := 5
      offPktBuf := 3
      cbPkt := 2
      cbChksumRecvLeft := 2 }

/-- Witness for C1 at the packet `$g#67` with both checksum characters
arriving. -/
theorem C1_checksum_ack_and_single_dispatch_witness :
    c1CtxGood.cbChksumRecvLeft ≤ 2
    ∧ ((pktBodySum { c1CtxGood with cbChksumRecvLeft := 0 }
          = pktRecvChksum { c1CtxGood with cbChksumRecvLeft := 0 } →
        (gdbStubCtxPktBufProcessChksum pIfSample c1CtxGood 2).out.evs
          = Event.ioWrite [43]
              :: (gdbStubCtxPktProcess pIfSample { c1CtxGood with cbChksumRecvLeft := 0 }).evs
        ∧ dispCount (gdbStubCtxPktBufProcessChksum pIfSample c1CtxGood 2).out.evs = 1
        ∧ (gdbStubCtxPktBufProcessChksum pIfSample c1CtxGood 2).out.ctx.enmState
            = GDBSTUBRECVSTATE.PACKET_WAIT_FOR_START)
      ∧ (pktBodySum { c1CtxGood with cbChksumRecvLeft := 0 }
          ≠ pktRecvChksum { c1CtxGood with cbChksumRecvLeft := 0 } →
        (gdbStubCtxPktBufProcessChksum pIfSample c1CtxGood 2).out.evs = [Event.ioWrite [45]]
        ∧ dispCount (gdbStubCtxPktBufProcessChksum pIfSample c1CtxGood 2).out.evs = 0
        ∧ (gdbStubCtxPktBufProcessChksum pIfSample c1CtxGood 2).out.ctx.enmState
            = GDBSTUBRECVSTATE.PACKET_WAIT_FOR_START
        ∧ (gdbStubCtxPktBufProcessChksum pIfSample c1CtxGood 2).out.rc
            = GDBSTUB_INF_SUCCESS))
    ∧ pktBodySum { c1CtxGood with cbChksumRecvLeft := 0 }
        = pktRecvChksum { c1CtxGood with cbChksumRecvLeft := 0 } :=
  ⟨by decide, C1_checksum_ack_and_single_dispatch pIfSample c1CtxGood 2 (by decide), by decide⟩

/-! Claim C10. -/

theorem replySend_mem_ioWrite (body : List Nat) :
    ∀ e ∈ gdbStubCtxReplySend body, ∃ bs, e = Event.ioWrite bs := by
  intro e he
  by_cases hb : body.length ≠ 0
  · simp only [gdbStubCtxReplySend, if_pos hb, List.mem_append, List.mem_cons,
      List.not_mem_nil, or_false] at he
    rcases he with (h | h) | h | h <;> exact ⟨_, h⟩
  · simp only [gdbStubCtxReplySend, if_neg hb, List.mem_append, List.mem_cons,
      List.not_mem_nil, or_false] at he
    rcases he with h | h | h <;> exact ⟨_, h⟩

/-- The pair decoder inspects at most the first `2 * cbDst` input
characters and the first `2 * cbDst` counted bytes. -/
theorem parseHexPairs_take (buf : List Nat) (cb d : Nat) :
    parseHexPairs buf cb d = parseHexPairs (buf.take (2 * d)) (min cb (2 * d)) d := by
  induction d generalizing buf cb with
  | zero => rfl
  | succ n ih =>
      match cb with
      | 0 => simp [parseHexPairs]
      | cb + 1 =>
          obtain ⟨m, hm⟩ : ∃ m, min (cb + 1) (2 * (n + 1)) = m + 1 :=
            ⟨min (cb + 1) (2 * (n + 1)) - 1, by omega⟩
          rw [hm]
          simp only [parseHexPairs]
          rw [getD_take 0 (show 0 < 2 * (n + 1) by omega),
            getD_take 0 (show 1 < 2 * (n + 1) by omega)]
          congr 1
          have hdt : (buf.take (2 * (n + 1))).drop 2 = (buf.drop 2).take (2 * n) := by
            rw [List.drop_take]
            congr 1
          have h3 : m + 1 - 2 = min (cb + 1 - 2) (2 * n) := by omega
          rw [hdt, h3]
          exact ih (buf.drop 2) (cb + 1 - 2)

/-- In an event list made of one register write followed by transport
writes, any register-write event carries exactly the leading value. -/
theorem regsWrite_cons_ioWrite {i v : List Nat} (tail : List Event)
    (htail : ∀ x ∈ tail, ∃ bs, x = Event.ioWrite bs) :
    ∀ e ∈ Event.regsWrite i v :: tail, ∀ idxs bytes, e = Event.regsWrite idxs bytes →
      bytes = v := by
  intro e he idxs bytes heq
  rcases List.mem_cons.1 he with h | h
  · rw [h] at heq
    injection heq with h1 h2
    exact h2.symm
  · obtain ⟨bs, hbs⟩ := htail e h
    rw [hbs] at heq
    simp at heq

/-- Any register-write event the `P` handler emits carries exactly the
4-byte truncation of the decoded payload. -/
theorem pktCaseWriteReg_regsWrite (pIf : GDBSTUBIF) (ctx : GDBSTUBCTXINT) :
    ∀ e ∈ (pktCaseWriteReg pIf ctx).evs, ∀ idxs bytes, e = Event.regsWrite idxs bytes →
      bytes.length = 4
      ∧ ∃ pr, gdbStubCtxParseHexStringAsByteBuf
          (ctx.pbPktBuf.drop
            (2 + (gdbStubCtxParseHexStringAsInteger (ctx.pbPktBuf.drop 2) (ctx.cbPkt - 1) 61).2 + 1))
          (ctx.cbPkt - 1
            - (gdbStubCtxParseHexStringAsInteger (ctx.pbPktBuf.drop 2) (ctx.cbPkt - 1) 61).2 - 1)
          4 = .ok pr
        ∧ bytes = (pr.1 ++ List.replicate 4 0).take 4 := by
  simp only [pktCaseWriteReg]
  by_cases hidx : (gdbStubCtxParseHexStringAsInteger (ctx.pbPktBuf.drop 2) (ctx.cbPkt - 1) 61).1
      % 2 ^ 32 < ctx.cRegs
  · rw [if_pos hidx]
    rcases hp : gdbStubCtxParseHexStringAsByteBuf
        (ctx.pbPktBuf.drop
          (2 + (gdbStubCtxParseHexStringAsInteger (ctx.pbPktBuf.drop 2) (ctx.cbPkt - 1) 61).2 + 1))
        (ctx.cbPkt - 1
          - (gdbStubCtxParseHexStringAsInteger (ctx.pbPktBuf.drop 2) (ctx.cbPkt - 1) 61).2 - 1)
        4 with err | pr
    · simp only []
      intro e he
      simp at he
    · simp only []
      repeat' split
      all_goals
        intro e he idxs bytes heq
        have hv := regsWrite_cons_ioWrite _ (fun x hx => replySend_mem_ioWrite _ x hx)
          e he idxs bytes heq
        refine ⟨?_, pr, rfl, hv⟩
        rw [hv]
        simp only [List.length_take, List.length_append, List.length_replicate]
        omega
  · rw [if_neg hidx]
    intro e he idxs bytes heq
    obtain ⟨bs, hbs⟩ := replySend_mem_ioWrite _ e he
    rw [hbs] at heq
    simp at heq

/-- C10: for a `P n=data` packet the handler decodes at most 4 bytes
(8 hex characters) of the payload into the 32-bit scratch value, passes
exactly those 4 bytes to the target register-write callback, and never
consults the declared register descriptors or bit widths: the run is
unchanged under any replacement of the interface register table. -/
theorem C10_write_reg_u32_truncation (pIf : GDBSTUBIF) (regs2 : List GDBSTUBREG)
    (ctx : GDBSTUBCTXINT) (hb : ctx.pbPktBuf.getD 1 0 = 80) (hcb : 1 ≤ ctx.cbPkt) :
    gdbStubCtxPktProcess pIf ctx = gdbStubCtxPktProcess { pIf with paRegs := regs2 } ctx
    ∧ (∀ e ∈ (gdbStubCtxPktProcess pIf ctx).evs, ∀ idxs bytes,
        e = Event.regsWrite idxs bytes →
          bytes.length = 4
          ∧ ∃ pr, gdbStubCtxParseHexStringAsByteBuf
              (ctx.pbPktBuf.drop
                (2 + (gdbStubCtxParseHexStringAsInteger (ctx.pbPktBuf.drop 2) (ctx.cbPkt - 1) 61).2 + 1))
              (ctx.cbPkt - 1
                - (gdbStubCtxParseHexStringAsInteger (ctx.pbPktBuf.drop 2) (ctx.cbPkt - 1) 61).2 - 1)
              4 = .ok pr
            ∧ bytes = (pr.1 ++ List.replicate 4 0).take 4)
    ∧ (∀ buf cb, parseHexPairs buf cb 4 = parseHexPairs (buf.take 8) (min cb 8) 4) := by
  have hsw : ∀ q : GDBSTUBIF, gdbStubCtxPktProcessSwitch q ctx = pktCaseWriteReg q ctx := by
    intro q
    unfold gdbStubCtxPktProcessSwitch
    rw [hb]
    rw [if_neg (by decide), if_neg (by decide), if_neg (by decide), if_neg (by decide),
      if_neg (by decide), if_neg (by decide), if_neg (by decide), if_neg (by decide),
      if_pos rfl]
  have hpp : ∀ q : GDBSTUBIF, gdbStubCtxPktProcess q ctx
      = ⟨(pktCaseWriteReg q ctx).ctx, Event.dispatchEnter :: (pktCaseWriteReg q ctx).evs,
          (pktCaseWriteReg q ctx).rc⟩ := by
    intro q
    simp only [gdbStubCtxPktProcess]
    rw [if_pos hcb, hsw q]
  refine ⟨?_, ?_, ?_⟩
  · rw [hpp pIf, hpp { pIf with paRegs := regs2 }]
    rfl
  · intro e he idxs bytes heq
    rw [hpp pIf] at he
    rcases List.mem_cons.1 he with h1 | h1
    · rw [h1] at heq
      simp at heq
    · exact pktCaseWriteReg_regsWrite pIf ctx e h1 idxs bytes heq
  · intro buf cb
    have h := parseHexPairs_take buf cb 4
    norm_num at h
    exact h

/-- A context holding the parsed packet `$P0=0102030405#16`: write
register 0 with a 10-byte hex payload. -/
def c10Ctx : GDBSTUBCTXINT :=
  { gdbStubCtxCreate pIfSample with
      enmState := GDBSTUBRECVSTATE.PACKET_RECEIVE_CHECKSUM
      pbPktBuf := strBytes "$P0=0102030405#16"
      cbPktBufMax := 17
      offPktBuf := 15
      cbPkt := 14
      cbChksumRecvLeft := 0 }

theorem C10_write_reg_u32_truncation_witness :
    c10Ctx.pbPktBuf.getD 1 0 = 80 ∧ 1 ≤ c10Ctx.cbPkt
    ∧ (gdbStubCtxPktProcess pIfSample c10Ctx
        = gdbStubCtxPktProcess
            { pIfSample with paRegs := [⟨"rax", 64, GDBSTUBREGTYPE.GP⟩] } c10Ctx
      ∧ (∀ e ∈ (gdbStubCtxPktProcess pIfSample c10Ctx).evs, ∀ idxs bytes,
          e = Event.regsWrite idxs bytes →
            bytes.length = 4
            ∧ ∃ pr, gdbStubCtxParseHexStringAsByteBuf
                (c10Ctx.pbPktBuf.drop
                  (2 + (gdbStubCtxParseHexStringAsInteger (c10Ctx.pbPktBuf.drop 2)
                      (c10Ctx.cbPkt - 1) 61).2 + 1))
                (c10Ctx.cbPkt - 1
                  - (gdbStubCtxParseHexStringAsInteger (c10Ctx.pbPktBuf.drop 2)
                      (c10Ctx.cbPkt - 1) 61).2 - 1)
                4 = .ok pr
              ∧ bytes = (pr.1 ++ List.replicate 4 0).take 4)
      ∧ (∀ buf cb, parseHexPairs buf cb 4 = parseHexPairs (buf.take 8) (min cb 8) 4)) :=
  ⟨by decide, by decide,
    C10_write_reg_u32_truncation pIfSample [⟨"rax", 64, GDBSTUBREGTYPE.GP⟩] c10Ctx
      (by decide) (by decide)⟩

/-! Claim C6. -/

theorem ensure_rc_success (ctx : GDBSTUBCTXINT) (n : Nat) :
    (gdbStubCtxEnsurePktBufSpace ctx n).2 = GDBSTUB_INF_SUCCESS := by
  unfold gdbStubCtxEnsurePktBufSpace
  split <;> rfl

theorem writeBytes_zero_take (buf data : List Nat) :
    (writeBytes buf 0 data).take data.length = data := by
  simp [writeBytes, List.take_left]

theorem GdbOut_evs_mk (c : GDBSTUBCTXINT) (e : List Event) (r : Int) :
    (GdbOut.mk c e r).evs = e := rfl

theorem GdbOut_rc_mk (c : GDBSTUBCTXINT) (e : List Event) (r : Int) :
    (GdbOut.mk c e r).rc = r := rfl

/-- A context with an 8-byte packet buffer for exercising the xfer
reply slicer. -/
def c6Ctx : GDBSTUBCTXINT :=
  { gdbStubCtxCreate pIfSample with
      pbPktBuf := List.replicate 8 0
      cbPktBufMax := 8 }

/-- C6: a read window ending exactly at the object end
(off + len = size) is the last chunk, yet the reply prefix byte is `m`
(109) rather than the claimed `l` (108). -/
theorem C6_xfer_exact_end_counterexample :
    (gdbStubCtxQueryXferReadReply c6Ctx 0 2 [65, 66] 2).evs
      = gdbStubCtxReplySend [109, 65, 66]
    ∧ (109 : Nat) ≠ 108 := by decide

/-- C6 (amended): the xfer read reply serves the requested slice of the
object, but the prefix is `l` (108) only when the window runs strictly
past the object end (off + len > size); a window ending exactly at the
end gets `m` (109) and the client must issue one further read, answered
by the bare `l` of the off = size case.  A start offset beyond the end
is answered with the error reply for the protocol-violation status
(error byte 249 = (-(-7)) mod 256 as the uint8 conversion of the
status).  A `qXfer:features:read` request whose annex is not
`target.xml` is answered with `E00`. -/
theorem C6_xfer_read_amended (ctx ctx2 : GDBSTUBCTXINT) (offRead cbRead : Nat)
    (pbObj : List Nat) (pIf : GDBSTUBIF) (pbArgs : List Nat) (cbArgs : Nat)
    (d : List Nat) (cchAnnex oR cR : Nat) :
    (offRead < pbObj.length →
      (gdbStubCtxQueryXferReadReply ctx offRead cbRead pbObj pbObj.length).evs
        = gdbStubCtxReplySend
            ((if pbObj.length < offRead + cbRead then 108 else 109)
              :: (pbObj.drop offRead).take (min cbRead (pbObj.length - offRead))))
    ∧ (offRead = pbObj.length →
        (gdbStubCtxQueryXferReadReply ctx offRead cbRead pbObj pbObj.length).evs
          = gdbStubCtxReplySend (strBytes "l"))
    ∧ (pbObj.length < offRead →
        (gdbStubCtxQueryXferReadReply ctx offRead cbRead pbObj pbObj.length).evs
          = gdbStubCtxReplySendErr 249)
    ∧ (1 ≤ cbArgs → pbArgs.getD 0 0 = 58 →
        ctx2.fFeatures &&& GDBSTUBCTX_FEATURES_F_TGT_DESC ≠ 0 →
        ctx2.pbTgtXmlDesc = some d →
        gdbStubCtxPktProcessQueryXferParseAnnexOffLen (pbArgs.drop 1) (cbArgs - 1)
          = .ok (cchAnnex, oR, cR) →
        ¬(cchAnnex = (strBytes "target.xml").length
            ∧ gdbStubMemcmpIsEq (pbArgs.drop 1) (strBytes "target.xml") cchAnnex) →
        (gdbStubCtxPktProcessQueryXferFeatRead pIf ctx2 pbArgs cbArgs).evs
          = gdbStubCtxReplySendErr 0)
    ∧ gdbStubCtxReplySendErr 0 = gdbStubCtxReplySend (strBytes "E00") := by
  have hmin : (if offRead + cbRead < pbObj.length then cbRead else pbObj.length - offRead)
      = min cbRead (pbObj.length - offRead) := by
    split <;> omega
  refine ⟨?_, ?_, ?_, ?_, by decide⟩
  · intro h1
    simp only [gdbStubCtxQueryXferReadReply]
    rw [hmin, if_pos h1, if_pos (ensure_rc_success _ _), GdbOut_evs_mk]
    congr 1
    have hlenS : ((pbObj.drop offRead).take (min cbRead (pbObj.length - offRead))).length
        = min cbRead (pbObj.length - offRead) := by
      rw [List.length_take, List.length_drop]
      omega
    have htake := writeBytes_zero_take
      (gdbStubCtxEnsurePktBufSpace ctx (min cbRead (pbObj.length - offRead) + 1)).1.pbPktBuf
      ((if min cbRead (pbObj.length - offRead) < cbRead then (108 : Nat) else 109)
        :: (pbObj.drop offRead).take (min cbRead (pbObj.length - offRead)))
    rw [List.length_cons, hlenS] at htake
    rw [htake]
    congr 1
    by_cases hc : pbObj.length < offRead + cbRead
    · rw [if_pos (show min cbRead (pbObj.length - offRead) < cbRead by omega), if_pos hc]
    · rw [if_neg (show ¬ min cbRead (pbObj.length - offRead) < cbRead by omega), if_neg hc]
  · intro h2
    simp only [gdbStubCtxQueryXferReadReply]
    rw [if_neg (by omega), if_pos h2, GdbOut_evs_mk]
  · intro h3
    simp only [gdbStubCtxQueryXferReadReply]
    rw [if_neg (by omega), if_neg (by omega), GdbOut_evs_mk]
    have h249 : ((GDBSTUB_ERR_PROTOCOL_VIOLATION.emod 256)).toNat = 249 := by decide
    rw [h249]
  · intro ha1 ha2 ha3 ha4 hparse hne
    have hfirst : ¬(cbArgs < 1 ∨ pbArgs.getD 0 0 ≠ 58) := by
      rintro (h | h)
      · omega
      · exact h ha2
    have hnotnone : ¬(ctx2.pbTgtXmlDesc = none) := by simp [ha4]
    simp only [gdbStubCtxPktProcessQueryXferFeatRead]
    rw [if_neg hfirst, if_pos ha3, if_neg hnotnone,
      if_pos (show ((ctx2, GDBSTUB_INF_SUCCESS) : GDBSTUBCTXINT × Int).2 = GDBSTUB_INF_SUCCESS
        from rfl),
      hparse]
    simp only []
    rw [if_neg hne, GdbOut_evs_mk]

/-- A context holding a cached two-byte target description. -/
def c6XferCtx : GDBSTUBCTXINT :=
  { gdbStubCtxCreate pIfSample with
      pbTgtXmlDesc := some [65, 66]
      cbTgtXmlDesc := 2 }

theorem C6_xfer_read_amended_witness :
    0 < ([65, 66] : List Nat).length
    ∧ ((gdbStubCtxQueryXferReadReply c6Ctx 0 2 [65, 66] ([65, 66] : List Nat).length).evs
        = gdbStubCtxReplySend
            ((if ([65, 66] : List Nat).length < 0 + 2 then 108 else 109)
              :: (([65, 66] : List Nat).drop 0).take (min 2 (([65, 66] : List Nat).length - 0))))
    ∧ (gdbStubCtxPktProcessQueryXferFeatRead pIfSample c6XferCtx
        (strBytes ":foo.xml:0,2") 12).evs = gdbStubCtxReplySendErr 0 :=
  ⟨by decide,
    (C6_xfer_read_amended c6Ctx c6XferCtx 0 2 [65, 66] pIfSample
        (strBytes ":foo.xml:0,2") 12 [65, 66] 7 0 2).1 (by decide),
    (C6_xfer_read_amended c6Ctx c6XferCtx 0 2 [65, 66] pIfSample
        (strBytes ":foo.xml:0,2") 12 [65, 66] 7 0 2).2.2.2.1
      (by decide) (by decide) (by decide) (by decide) (by rfl) (by decide)⟩

/-! Claim C2. -/

/-- One successful iteration of the memory-read loop: read the chunk,
hex-encode it at the current buffer offset and advance the offset by
the raw chunk size. -/
theorem memReadLoopF_step (pIf : GDBSTUBIF) (fuel : Nat) (buf : List Nat)
    (off cbPktBufLeft addr cbRead : Nat) (bytes : List Nat)
    (hread : pIf.pfnTgtMemRead addr (min (cbRead + 1) 1024) = (GDBSTUB_INF_SUCCESS, bytes))
    (hlen : bytes.length = min (cbRead + 1) 1024)
    (hfit : min (cbRead + 1) 1024 * 2 ≤ cbPktBufLeft) :
    memReadLoopF pIf (fuel + 1) buf off cbPktBufLeft addr (cbRead + 1)
      = ((memReadLoopF pIf fuel (writeBytes buf off (hexOfBytes bytes))
            (off + min (cbRead + 1) 1024) (cbPktBufLeft - min (cbRead + 1) 1024)
            (addr + min (cbRead + 1) 1024) (cbRead + 1 - min (cbRead + 1) 1024)).1,
          Event.memRead addr (min (cbRead + 1) 1024)
            :: (memReadLoopF pIf fuel (writeBytes buf off (hexOfBytes bytes))
                  (off + min (cbRead + 1) 1024) (cbPktBufLeft - min (cbRead + 1) 1024)
                  (addr + min (cbRead + 1) 1024) (cbRead + 1 - min (cbRead + 1) 1024)).2.1,
          (memReadLoopF pIf fuel (writeBytes buf off (hexOfBytes bytes))
            (off + min (cbRead + 1) 1024) (cbPktBufLeft - min (cbRead + 1) 1024)
            (addr + min (cbRead + 1) 1024) (cbRead + 1 - min (cbRead + 1) 1024)).2.2) := by
  simp only [memReadLoopF]
  rw [hread]
  have hc1 : ¬(((GDBSTUB_INF_SUCCESS, bytes) : Int × List Nat).1 ≠ GDBSTUB_INF_SUCCESS) := by
    simp
  rw [if_neg hc1]
  have habTmp : (((GDBSTUB_INF_SUCCESS, bytes) : Int × List Nat).2
        ++ List.replicate (min (cbRead + 1) 1024) 0).take (min (cbRead + 1) 1024)
      = bytes := by
    show (bytes ++ _).take _ = bytes
    rw [← hlen, List.take_left]
  rw [habTmp]
  simp only [gdbStubCtxEncodeBinaryAsHex]
  have henc : ¬(bytes.length * 2 > cbPktBufLeft) := by omega
  rw [if_neg henc]

/-- The memory-read loop on a 1025-byte request against the sample
target: two chunks (1024 bytes from address 0, then 1 byte from
address 1024), the second chunk's two hex characters written at buffer
offset 1024. -/
theorem memReadLoop_c2 (b0 : List Nat) :
    memReadLoop pIfSample b0 0 2050 0 1025
      = (writeBytes (writeBytes b0 0 (hexOfBytes (List.replicate 1024 1))) 1024
            (hexOfBytes [2]),
          [Event.memRead 0 1024, Event.memRead 1024 1], GDBSTUB_INF_SUCCESS) := by
  have hmin1 : min (1024 + 1) 1024 = 1024 := rfl
  have hmin2 : min (0 + 1) 1024 = 1 := rfl
  have hread1 : pIfSample.pfnTgtMemRead 0 (min (1024 + 1) 1024)
      = (GDBSTUB_INF_SUCCESS, List.replicate 1024 1) := rfl
  have hlen1 : (List.replicate 1024 (1 : Nat)).length = min (1024 + 1) 1024 := by
    rw [hmin1, List.length_replicate]
  have hfit1 : min (1024 + 1) 1024 * 2 ≤ 2050 := by rw [hmin1]; norm_num
  have h1 := memReadLoopF_step pIfSample 1024 b0 0 2050 0 1024 (List.replicate 1024 1)
    hread1 hlen1 hfit1
  rw [hmin1] at h1
  norm_num at h1
  have hread2 : pIfSample.pfnTgtMemRead 1024 (min (0 + 1) 1024)
      = (GDBSTUB_INF_SUCCESS, [2]) := rfl
  have hlen2 : ([2] : List Nat).length = min (0 + 1) 1024 := by rw [hmin2]; rfl
  have hfit2 : min (0 + 1) 1024 * 2 ≤ 1026 := by rw [hmin2]; norm_num
  have h2 := memReadLoopF_step pIfSample 1023
    (writeBytes b0 0 (hexOfBytes (List.replicate 1024 1))) 1024 1026 1024 0 [2]
    hread2 hlen2 hfit2
  rw [hmin2] at h2
  norm_num at h2
  have hbase : memReadLoopF pIfSample 1023
      (writeBytes (writeBytes b0 0 (hexOfBytes (List.replicate 1024 1))) 1024 (hexOfBytes [2]))
      1025 1025 1025 0
      = (writeBytes (writeBytes b0 0 (hexOfBytes (List.replicate 1024 1))) 1024 (hexOfBytes [2]),
          [], GDBSTUB_INF_SUCCESS) := rfl
  show memReadLoopF pIfSample 1025 b0 0 2050 0 1025 = _
  rw [h1, h2, hbase]

/-- A parsed `m 0,401` packet: read 0x401 = 1025 bytes from address 0,
streamed as a 1024-byte chunk followed by a 1-byte chunk. -/
def c2Ctx : GDBSTUBCTXINT :=
  { gdbStubCtxCreate pIfSample with
      enmState := .PACKET_RECEIVE_CHECKSUM
      pbPktBuf := strBytes "$m0,401#5e"
      cbPktBufMax := 10
      offPktBuf := 8
      cbPkt := 7
      cbChksumRecvLeft := 0 }

/-- The packet buffer after the reply-size reallocation for the 2050
hex characters of a 1025-byte read. -/
def c2Buf0 : List Nat := (gdbStubCtxEnsurePktBufSpace c2Ctx 2050).1.pbPktBuf

/-- The packet buffer after both loop iterations: the second chunk's
two hex characters land at offset 1024 (the raw byte count consumed so
far) inside the first chunk's 2048-character encoding, instead of at
offset 2048 where the encoding of byte 1024 belongs. -/
def c2Buf2 : List Nat :=
  writeBytes (writeBytes c2Buf0 0 (hexOfBytes (List.replicate 1024 1))) 1024 (hexOfBytes [2])

/-- C2: on the `m 0,401` packet (a 1025-byte read served in a 1024-byte
chunk and a 1-byte chunk) the stub reports success and replies with a
2050-character body of the right length, but the body is not the hex
encoding of the 1025 bytes read: the loop advances the write position
by the raw chunk size `cbThisRead` instead of the encoded size
`cbThisRead * 2`, so the second chunk's characters land at offset 1024
(mid-way into the first chunk's encoding, leaving character 1025 equal
to `0` of the overwrite) while the correct encoding has character 1025
equal to `1` (the low nibble of byte 512). -/
theorem C2_mem_read_multichunk_bug :
    (gdbStubCtxPktProcess pIfSample c2Ctx).evs
      = Event.dispatchEnter :: Event.memRead 0 1024 :: Event.memRead 1024 1
          :: gdbStubCtxReplySend (c2Buf2.take 2050)
    ∧ (gdbStubCtxPktProcess pIfSample c2Ctx).rc = GDBSTUB_INF_SUCCESS
    ∧ (c2Buf2.take 2050).length = (hexOfBytes (List.replicate 1024 1 ++ [2])).length
    ∧ (c2Buf2.take 2050).getD 1025 0 = 50
    ∧ (hexOfBytes (List.replicate 1024 1 ++ [2])).getD 1025 0 = 49
    ∧ c2Buf2.take 2050 ≠ hexOfBytes (List.replicate 1024 1 ++ [2]) := by
  have hb109 : c2Ctx.pbPktBuf.getD 1 0 = 109 := by decide
  have hge : c2Ctx.cbPkt ≥ 1 := by decide
  have hsw : gdbStubCtxPktProcessSwitch pIfSample c2Ctx = pktCaseReadMem pIfSample c2Ctx := by
    unfold gdbStubCtxPktProcessSwitch
    rw [hb109]
    rw [if_neg (by decide), if_neg (by decide), if_neg (by decide), if_neg (by decide),
      if_neg (by decide), if_pos rfl]
  have hppEvs : (gdbStubCtxPktProcess pIfSample c2Ctx).evs
      = Event.dispatchEnter :: (pktCaseReadMem pIfSample c2Ctx).evs := by
    simp only [gdbStubCtxPktProcess]
    rw [if_pos hge, hsw]
  have hppRc : (gdbStubCtxPktProcess pIfSample c2Ctx).rc
      = (pktCaseReadMem pIfSample c2Ctx).rc := by
    simp only [gdbStubCtxPktProcess]
    rw [if_pos hge, hsw]
  have hcb : c2Ctx.cbPkt = 7 := rfl
  have hp1 : gdbStubCtxParseHexStringAsInteger (c2Ctx.pbPktBuf.drop 2) 6 44 = (0, 1) := by
    decide
  have hp2 : gdbStubCtxParseHexStringAsInteger (c2Ctx.pbPktBuf.drop 4) 4 GDBSTUB_PKT_END
      = (1025, 3) := by decide
  have hevs : (pktCaseReadMem pIfSample c2Ctx).evs
      = [Event.memRead 0 1024, Event.memRead 1024 1]
          ++ gdbStubCtxReplySend (c2Buf2.take 2050) := by
    simp only [pktCaseReadMem, hcb]
    norm_num
    rw [hp1]
    norm_num
    rw [hp2]
    norm_num
    rw [if_pos (ensure_rc_success c2Ctx 2050)]
    rw [show (gdbStubCtxEnsurePktBufSpace c2Ctx 2050).1.pbPktBuf = c2Buf0 from rfl]
    rw [memReadLoop_c2 c2Buf0]
    rw [show writeBytes (writeBytes c2Buf0 0 (hexOfBytes (List.replicate 1024 1))) 1024
          (hexOfBytes [2]) = c2Buf2 from rfl]
    have htr : ((c2Buf2, [Event.memRead 0 1024, Event.memRead 1024 1], GDBSTUB_INF_SUCCESS)
        : List Nat × List Event × Int).2.2 = GDBSTUB_INF_SUCCESS := rfl
    rw [if_pos htr]
    simp only [List.cons_append, List.nil_append]
  have hrc : (pktCaseReadMem pIfSample c2Ctx).rc = GDBSTUB_INF_SUCCESS := by
    simp only [pktCaseReadMem, hcb]
    norm_num
    rw [hp1]
    norm_num
    rw [hp2]
    norm_num
    rw [if_pos (ensure_rc_success c2Ctx 2050)]
    rw [show (gdbStubCtxEnsurePktBufSpace c2Ctx 2050).1.pbPktBuf = c2Buf0 from rfl]
    rw [memReadLoop_c2 c2Buf0]
    rw [show writeBytes (writeBytes c2Buf0 0 (hexOfBytes (List.replicate 1024 1))) 1024
          (hexOfBytes [2]) = c2Buf2 from rfl]
    have htr : ((c2Buf2, [Event.memRead 0 1024, Event.memRead 1024 1], GDBSTUB_INF_SUCCESS)
        : List Nat × List Event × Int).2.2 = GDBSTUB_INF_SUCCESS := rfl
    rw [if_pos htr]
  have hb0 : c2Buf0 = c2Ctx.pbPktBuf.take 8 ++ List.replicate 2044 0 := by
    show (gdbStubCtxEnsurePktBufSpace c2Ctx 2050).1.pbPktBuf = _
    simp only [gdbStubCtxEnsurePktBufSpace]
    have hcap : ¬(c2Ctx.cbPktBufMax - c2Ctx.offPktBuf ≥ 2050) := by decide
    rw [if_neg hcap]
    rfl
  have hlen10 : c2Ctx.pbPktBuf.length = 10 := by decide
  have hb0len : c2Buf0.length = 2052 := by
    rw [hb0, List.length_append, List.length_take, List.length_replicate, hlen10]
    omega
  have hhexlen1 : (hexOfBytes (List.replicate 1024 (1 : Nat))).length = 2048 := by
    rw [hexOfBytes_length, List.length_replicate]
  have hfits1 : 0 + (hexOfBytes (List.replicate 1024 (1 : Nat))).length ≤ c2Buf0.length := by
    rw [hhexlen1, hb0len]
    norm_num
  have hB1len : (writeBytes c2Buf0 0 (hexOfBytes (List.replicate 1024 (1 : Nat)))).length
      = 2052 := by
    rw [writeBytes_length hfits1, hb0len]
  have hB2len : c2Buf2.length = 2052 := by
    show (writeBytes (writeBytes c2Buf0 0 (hexOfBytes (List.replicate 1024 1))) 1024
        (hexOfBytes [2])).length = 2052
    have h2l : (hexOfBytes [2] : List Nat).length = 2 := rfl
    have hfits2 : 1024 + (hexOfBytes [2] : List Nat).length
        ≤ (writeBytes c2Buf0 0 (hexOfBytes (List.replicate 1024 (1 : Nat)))).length := by
      rw [h2l, hB1len]
      norm_num
    rw [writeBytes_length hfits2, hB1len]
  have h3 : (c2Buf2.take 2050).getD 1025 0 = 50 := by
    have hlt : (1025 : Nat) < 2050 := by norm_num
    rw [getD_take 0 hlt]
    show (writeBytes (writeBytes c2Buf0 0 (hexOfBytes (List.replicate 1024 1))) 1024
        (hexOfBytes [2])).getD 1025 0 = 50
    have hoff : (1024 : Nat)
        ≤ (writeBytes c2Buf0 0 (hexOfBytes (List.replicate 1024 (1 : Nat)))).length := by
      rw [hB1len]
      norm_num
    have hle : (1024 : Nat) ≤ 1025 := by norm_num
    have hi2 : (1025 : Nat) < 1024 + (hexOfBytes [2] : List Nat).length := by decide
    rw [writeBytes_getD_mid 0 hoff hle hi2]
    decide
  have h4 : (hexOfBytes (List.replicate 1024 (1 : Nat) ++ [2])).getD 1025 0 = 49 := by
    rw [show (1025 : Nat) = 2 * 512 + 1 from rfl]
    have hlt : (512 : Nat) < (List.replicate 1024 (1 : Nat) ++ [2]).length := by
      rw [List.length_append, List.length_replicate, show ([2] : List Nat).length = 1 from rfl]
      norm_num
    rw [hexOfBytes_getD_odd _ 512 _ hlt]
    have hlt2 : (512 : Nat) < (List.replicate 1024 (1 : Nat)).length := by
      rw [List.length_replicate]
      norm_num
    rw [getD_append_left 0 hlt2]
    have hlt3 : (512 : Nat) < 1024 := by norm_num
    rw [getD_replicate 0 hlt3]
    decide
  refine ⟨?_, ?_, ?_, h3, h4, ?_⟩
  · rw [hppEvs, hevs]
    simp only [List.cons_append, List.nil_append]
  · rw [hppRc, hrc]
  · rw [List.length_take, hB2len, hexOfBytes_length, List.length_append,
      List.length_replicate, show ([2] : List Nat).length = 1 from rfl]
    omega
  · intro heq
    rw [heq, h4] at h3
    exact absurd h3 (by norm_num)

end GdbStub
